import Mathlib

/-!
# Dial orchestration of `internal/netplumbing/dial.go`

A shallow embedding of `Transport.DialContext`, `Transport.directDialContext`
and `Transport.doDialContext`, followed by the properties proved about them.

Conventions of the embedding:

* a Go `error` value is a term of `Error`; a Go result `(x, err)` keeps both
  components, `none` standing for `nil`;
* the methods and functions that `dial.go` calls but does not define
  (`ContextSettings`, `Transport.LookupHost`, `Transport.connect`, the logger)
  are fields of `Transport`; they may read and change an arbitrary world
  state `σ`, which the embedding threads through the calls in program order;
* every call to one of these collaborators is appended to `Outcome.calls`,
  so that the order and the arguments of the calls can be stated;
* `net.SplitHostPort` and `net.JoinHostPort` belong to the Go standard
  library; they are transcribed from `net/ipsock.go`. Go strings are byte
  strings; the delimiters these two functions look for are ASCII, so on
  UTF-8 text searching bytes and searching characters agree;
* the verb `%#v` of `fmt.Sprintf`, which `ErrAllConnectsFailed.Error` uses,
  also belongs to the standard library; its rules for an `[]error` are
  transcribed from `fmt/print.go`, the address printed for a pointer being
  a parameter.
-/

namespace Netplumbing

/-! ## Errors -/

/-- The Go `error` values that can flow through `dial.go`. -/
inductive Error where
  /-- The sentinel `ErrProxyNotImplemented`. -/
  | ErrProxyNotImplemented
  /-- A `*net.AddrError{Err, Addr}`, the error type of `net.SplitHostPort`. -/
  | AddrError (Err Addr : String)
  /-- The sentinel `context.Canceled`. -/
  | Canceled
  /-- The sentinel `context.DeadlineExceeded`. -/
  | DeadlineExceeded
  /-- Any other error value produced by a collaborator. -/
  | Other (msg : String)
  /-- A `*ErrAllConnectsFailed{Errors}`. -/
  | ErrAllConnectsFailed (Errors : List Error)
  /-- A `*ErrDial{error}`. -/
  | ErrDial (error : Error)

/-- The method `(*ErrDial).Unwrap`: the embedded error. Values of the other
error types of this file have no such method, which `none` stands for. -/
def Error.Unwrap : Error → Option Error
  | .ErrDial error => some error
  | _ => none

/-! ## `net.SplitHostPort` and `net.JoinHostPort` -/

/-- `bytealg.IndexByteString`: index of the first `c` in `s`. -/
def IndexByteString : List Char → Char → Option Nat
  | [], _ => none
  | x :: xs, c => if x = c then some 0 else (IndexByteString xs c).map (· + 1)

/-- The helper `last` of package `net`: index of the last `c` in `s`. -/
def last : List Char → Char → Option Nat
  | [], _ => none
  | x :: xs, c =>
    match last xs c with
    | some i => some (i + 1)
    | none => if x = c then some 0 else none

/-- The closure `addrErr` of `net.SplitHostPort`. -/
def addrErr (addr why : String) : String × String × Option Error :=
  ("", "", some (.AddrError why addr))

/-- The tail of `net.SplitHostPort`, after `host`, `j` and `k` are set:
the two bracket checks, then the port after the last colon `i`. -/
def splitTail (hostport : String) (i : Nat) (host : List Char) (j k : Nat) :
    String × String × Option Error :=
  if (IndexByteString (hostport.toList.drop j) '[').isSome then
    addrErr hostport "unexpected '[' in address"
  else if (IndexByteString (hostport.toList.drop k) ']').isSome then
    addrErr hostport "unexpected ']' in address"
  else
    (String.mk host, String.mk (hostport.toList.drop (i + 1)), none)

/-- `net.SplitHostPort(hostport)`, returning `(host, port, err)`. -/
def SplitHostPort (hostport : String) : String × String × Option Error :=
  match last hostport.toList ':' with
  | none => addrErr hostport "missing port in address"
  | some i =>
    if hostport.toList.head? = some '[' then
      match IndexByteString hostport.toList ']' with
      | none => addrErr hostport "missing ']' in address"
      | some e =>
        if e + 1 = hostport.toList.length then
          addrErr hostport "missing port in address"
        else if e + 1 = i then
          splitTail hostport i ((hostport.toList.take e).drop 1) 1 (e + 1)
        else if hostport.toList.get? (e + 1) = some ':' then
          addrErr hostport "too many colons in address"
        else
          addrErr hostport "missing port in address"
    else
      if (IndexByteString (hostport.toList.take i) ':').isSome then
        addrErr hostport "too many colons in address"
      else
        splitTail hostport i (hostport.toList.take i) 0 0

/-- `net.JoinHostPort(host, port)`: a host with a colon in it is put in
square brackets. -/
def JoinHostPort (host port : String) : String :=
  if (IndexByteString host.toList ':').isSome then
    "[" ++ host ++ "]:" ++ port
  else
    host ++ ":" ++ port

/-! ## The transport and its collaborators -/

/-- The part of `Settings` that `dial.go` reads: the optional proxy URL. -/
structure Settings where
  /-- The field `Proxy`, a `*url.URL`. -/
  Proxy : Option String

/-- An argument of a `Debugf` call. -/
inductive LogArg where
  | str (s : String)
  | err (e : Error)

/-- A call made by the dialer to one of its collaborators. -/
inductive Call (Ctx : Type) where
  | LookupHost (ctx : Ctx) (hostname : String)
  | connect (ctx : Ctx) (network epnt : String)
  | Debugf (ctx : Ctx) (format : String) (args : List LogArg)

/-- The collaborators of the dialer. None of them is defined in `dial.go`;
each is taken as given, acting on the world state `σ`. -/
structure Transport (σ Ctx Conn : Type) where
  /-- The function `ContextSettings(ctx)`; `none` is a nil pointer. -/
  ContextSettings : Ctx → Option Settings
  /-- The method `txp.LookupHost(ctx, hostname)`. -/
  LookupHost : Ctx → String → σ → (List String × Option Error) × σ
  /-- The method `txp.connect(ctx, network, epnt)`. -/
  connect : Ctx → String → String → σ → (Option Conn × Option Error) × σ
  /-- The call `txp.logger(ctx).Debugf(format, args...)`. -/
  Debugf : Ctx → String → List LogArg → σ → σ

/-- What a dial function leaves behind: the Go result `(conn, err)`, the
world state after the call, and the collaborator calls it made, in order. -/
structure Outcome (σ Ctx Conn : Type) where
  conn : Option Conn
  err : Option Error
  state : σ
  calls : List (Call Ctx)

variable {σ Ctx Conn : Type}

/-! ## The dial functions -/

/-- The `for _, ipaddr := range ipaddrs` loop of `doDialContext` together
with the `return nil, aggregate` after it; `errors` is `aggregate.Errors`. -/
def connectLoop (txp : Transport σ Ctx Conn) (ctx : Ctx) (network port : String) :
    List String → List Error → σ → Outcome σ Ctx Conn
  | [], errors, s => ⟨none, some (.ErrAllConnectsFailed errors), s, []⟩
  | ipaddr :: rest, errors, s =>
    let epnt := JoinHostPort ipaddr port
    match txp.connect ctx network epnt s with
    | ((conn, none), s1) => ⟨conn, none, s1, [.connect ctx network epnt]⟩
    | ((_, some err), s1) =>
      let r := connectLoop txp ctx network port rest (errors ++ [err]) s1
      { r with calls := .connect ctx network epnt :: r.calls }

/-- `Transport.doDialContext`. -/
def doDialContext (txp : Transport σ Ctx Conn) (ctx : Ctx) (network addr : String)
    (s : σ) : Outcome σ Ctx Conn :=
  match SplitHostPort addr with
  | (_, _, some err) => ⟨none, some err, s, []⟩
  | (hostname, port, none) =>
    match txp.LookupHost ctx hostname s with
    | ((_, some err), s1) => ⟨none, some err, s1, [.LookupHost ctx hostname]⟩
    | ((ipaddrs, none), s1) =>
      let r := connectLoop txp ctx network port ipaddrs [] s1
      { r with calls := .LookupHost ctx hostname :: r.calls }

/-- `Transport.directDialContext`. -/
def directDialContext (txp : Transport σ Ctx Conn) (ctx : Ctx) (network address : String)
    (s : σ) : Outcome σ Ctx Conn :=
  let start := Call.Debugf ctx "dial: %s/%s..." [.str address, .str network]
  let r := doDialContext txp ctx network address
    (txp.Debugf ctx "dial: %s/%s..." [.str address, .str network] s)
  match r.err with
  | some err =>
    ⟨none, some err,
      txp.Debugf ctx "dial: %s/%s... %s" [.str address, .str network, .err err] r.state,
      start :: r.calls ++
        [.Debugf ctx "dial: %s/%s... %s" [.str address, .str network, .err err]]⟩
  | none =>
    ⟨r.conn, none,
      txp.Debugf ctx "dial: %s/%s... ok" [.str address, .str network] r.state,
      start :: r.calls ++ [.Debugf ctx "dial: %s/%s... ok" [.str address, .str network]]⟩

/-- The test `settings != nil && settings.Proxy != nil` of `DialContext`. -/
def proxyConfigured (txp : Transport σ Ctx Conn) (ctx : Ctx) : Bool :=
  match txp.ContextSettings ctx with
  | some settings => settings.Proxy.isSome
  | none => false

/-- `Transport.DialContext`. -/
def DialContext (txp : Transport σ Ctx Conn) (ctx : Ctx) (network address : String)
    (s : σ) : Outcome σ Ctx Conn :=
  if proxyConfigured txp ctx then
    ⟨none, some (.ErrDial .ErrProxyNotImplemented), s, []⟩
  else
    let r := directDialContext txp ctx network address s
    match r.err with
    | some err => ⟨none, some (.ErrDial err), r.state, r.calls⟩
    | none => ⟨r.conn, none, r.state, r.calls⟩

/-! ## Vocabulary of the statements -/

/-- The world state in which `directDialContext` calls `doDialContext`:
the one its first `Debugf` leaves. -/
def dialState (txp : Transport σ Ctx Conn) (ctx : Ctx) (network address : String)
    (s : σ) : σ :=
  txp.Debugf ctx "dial: %s/%s..." [.str address, .str network] s

/-- What the connector answers when it is tried on the endpoint of every ip
of the list, one after the other in list order, whatever the answers. -/
def attempts (txp : Transport σ Ctx Conn) (ctx : Ctx) (network port : String) :
    List String → σ → List (Option Conn × Option Error)
  | [], _ => []
  | ipaddr :: rest, s =>
    (txp.connect ctx network (JoinHostPort ipaddr port) s).1 ::
      attempts txp ctx network port rest
        (txp.connect ctx network (JoinHostPort ipaddr port) s).2

/-- Length of the shortest prefix of a list of connector answers that ends
with a success (a nil error), or of the whole list when none succeeds. -/
def attemptedCount : List (Option Conn × Option Error) → Nat
  | [] => 0
  | (_, none) :: _ => 1
  | (_, some _) :: rest => attemptedCount rest + 1

/-- The resolver calls of a call list: context and hostname of each. -/
def lookupCalls : List (Call Ctx) → List (Ctx × String)
  | [] => []
  | .LookupHost ctx hostname :: cs => (ctx, hostname) :: lookupCalls cs
  | .connect _ _ _ :: cs => lookupCalls cs
  | .Debugf _ _ _ :: cs => lookupCalls cs

/-- The connector calls of a call list: context, network and endpoint of each. -/
def connectCalls : List (Call Ctx) → List (Ctx × String × String)
  | [] => []
  | .connect ctx network epnt :: cs => (ctx, network, epnt) :: connectCalls cs
  | .LookupHost _ _ :: cs => connectCalls cs
  | .Debugf _ _ _ :: cs => connectCalls cs

/-! ## Transports for the examples -/

/-- A transport whose resolver knows the single name `example.com`, for
which it returns `ips`, and whose connector accepts exactly the endpoints
listed in `good`. The context is the settings pointer itself and the world
state counts the resolver and connector calls made so far. -/
def exampleTransport (ips good : List String) : Transport Nat (Option Settings) String where
  ContextSettings := fun ctx => ctx
  LookupHost := fun _ hostname s =>
    if hostname = "example.com" then ((ips, none), s + 1)
    else (([], some (.Other "no such host")), s + 1)
  connect := fun _ _ epnt s =>
    if epnt ∈ good then ((some epnt, none), s + 1)
    else ((none, some (.Other ("connection refused: " ++ epnt))), s + 1)
  Debugf := fun _ _ _ s => s

/-- A transport driven by a script. The resolver returns `resolved` for
every hostname. The world state is the list of answers the connector has
still to give: each connector call takes the first one, and the connector
refuses once the list is used up. The context is the settings pointer. -/
def scriptedTransport (resolved : List String × Option Error) :
    Transport (List (Option String × Option Error)) (Option Settings) String where
  ContextSettings := fun ctx => ctx
  LookupHost := fun _ _ s => (resolved, s)
  connect := fun _ _ _ s =>
    match s with
    | [] => ((none, some (.Other "connection refused")), [])
    | a :: rest => (a, rest)
  Debugf := fun _ _ _ s => s

/-! ## String forms of the errors -/

/-- The `%#v` form that `fmt` gives to one element of an `[]error`,
transcribed from `printValue` and `fmtPointer` of `fmt/print.go`. With
`%#v` the `Error` method of the element is not called. An element that is
a pointer is printed as its type in parentheses followed by its address in
parentheses; `addr` gives the text of the address the runtime has for the
value. `context.DeadlineExceeded` is a struct value without fields and is
printed as its type followed by braces. The dynamic type of an `Other`
value is not known here, so its form is given by `other`. -/
def goSyntax (addr : Error → String) (other : String → String) : Error → String
  | .ErrProxyNotImplemented => "(*errors.errorString)(" ++ addr .ErrProxyNotImplemented ++ ")"
  | .AddrError e a => "(*net.AddrError)(" ++ addr (.AddrError e a) ++ ")"
  | .Canceled => "(*errors.errorString)(" ++ addr .Canceled ++ ")"
  | .DeadlineExceeded => "context.deadlineExceededError\x7b\x7d"
  | .Other msg => other msg
  | .ErrAllConnectsFailed errs =>
    "(*netplumbing.ErrAllConnectsFailed)(" ++ addr (.ErrAllConnectsFailed errs) ++ ")"
  | .ErrDial e => "(*netplumbing.ErrDial)(" ++ addr (.ErrDial e) ++ ")"

/-- The `%#v` form of an `[]error` whose elements have the forms `elems`,
transcribed from the slice case of `printValue`: the type, then `(nil)` for
the nil slice, else the elements in braces, separated by a comma and a
blank. An empty list stands for the nil slice, which is what
`doDialContext` leaves in `aggregate.Errors` when nothing was appended. -/
def sharpVErrors : List String → String
  | [] => "[]error(nil)"
  | elems => "[]error\x7b" ++ ", ".intercalate elems ++ "\x7d"

/-- The method `(*ErrAllConnectsFailed).Error` of `dial.go`:
`fmt.Sprintf("one or more connect() failed: %#v", err.Errors)`. -/
def ErrAllConnectsFailed.Error (addr : Error → String) (other : String → String)
    (Errors : List Error) : String :=
  "one or more connect() failed: " ++ sharpVErrors (Errors.map (goSyntax addr other))

/-- The method `Error` of an error value, its message. For
`*ErrAllConnectsFailed` it is the method of `dial.go`; `ErrDial` embeds an
error and has the method of the embedded error; for `*net.AddrError` the
method is transcribed from package `net`; the sentinels have the texts
they were made with, and an `Other` value has its message. -/
def Error.Error (addr : Error → String) (other : String → String) :
    Netplumbing.Error → String
  | .ErrProxyNotImplemented => "netplumbing: proxy not implemented"
  | .AddrError e a => if a = "" then e else "address " ++ a ++ ": " ++ e
  | .Canceled => "context canceled"
  | .DeadlineExceeded => "context deadline exceeded"
  | .Other msg => msg
  | .ErrAllConnectsFailed errs => ErrAllConnectsFailed.Error addr other errs
  | .ErrDial e => Error.Error addr other e

/-! ## Lemmas on the loop and on the wrappers -/

theorem attempts_length (txp : Transport σ Ctx Conn) (ctx : Ctx) (network port : String)
    (ips : List String) (s : σ) :
    (attempts txp ctx network port ips s).length = ips.length := by
  induction ips generalizing s with
  | nil => rfl
  | cons ip rest ih => simp [attempts, ih]

theorem attempts_cons (txp : Transport σ Ctx Conn) (ctx : Ctx) (network port : String)
    (ip : String) (rest : List String) (s s1 : σ) (c : Option Conn) (e : Option Error)
    (hc : txp.connect ctx network (JoinHostPort ip port) s = ((c, e), s1)) :
    attempts txp ctx network port (ip :: rest) s
      = (c, e) :: attempts txp ctx network port rest s1 := by
  simp [attempts, hc]

/-- When every attempt fails the loop ends in the aggregate of the errors,
in order, after one connector call for each ip. -/
theorem connectLoop_all_fail (txp : Transport σ Ctx Conn) (ctx : Ctx) (network port : String)
    (ips : List String) (errors : List Error) (s : σ)
    (hfail : ∀ a ∈ attempts txp ctx network port ips s, a.2 ≠ none) :
    ∃ errs : List Error,
      errs.map some = (attempts txp ctx network port ips s).map (·.2) ∧
      (connectLoop txp ctx network port ips errors s).err
        = some (.ErrAllConnectsFailed (errors ++ errs)) ∧
      (connectLoop txp ctx network port ips errors s).conn = none ∧
      (connectLoop txp ctx network port ips errors s).calls
        = ips.map (fun ip => .connect ctx network (JoinHostPort ip port)) := by
  induction ips generalizing errors s with
  | nil => exact ⟨[], by simp [attempts, connectLoop]⟩
  | cons ip rest ih =>
    rcases hc : txp.connect ctx network (JoinHostPort ip port) s with ⟨⟨conn, e⟩, s1⟩
    rw [attempts_cons txp ctx network port ip rest s s1 conn e hc] at hfail ⊢
    cases e with
    | none => exact absurd rfl (hfail (conn, none) (List.mem_cons_self _ _))
    | some err =>
      obtain ⟨errs, h1, h2, h3, h4⟩ :=
        ih (errors ++ [err]) s1 (fun a ha => hfail a (List.mem_cons_of_mem _ ha))
      refine ⟨err :: errs, ?_, ?_, ?_, ?_⟩
      · simp [h1]
      · simp [connectLoop, hc, h2]
      · simp [connectLoop, hc, h3]
      · simp [connectLoop, hc, h4]

/-- When the answers start with failures followed by a success, the loop
returns that success after one connector call for each ip up to it. -/
theorem connectLoop_first_success (txp : Transport σ Ctx Conn) (ctx : Ctx)
    (network port : String) (ips : List String) (errors : List Error) (s : σ)
    (fails later : List (Option Conn × Option Error)) (conn : Option Conn)
    (hat : attempts txp ctx network port ips s = fails ++ (conn, none) :: later)
    (hfail : ∀ a ∈ fails, a.2 ≠ none) :
    (connectLoop txp ctx network port ips errors s).conn = conn ∧
    (connectLoop txp ctx network port ips errors s).err = none ∧
    (connectLoop txp ctx network port ips errors s).calls
      = (ips.take (fails.length + 1)).map
          (fun ip => .connect ctx network (JoinHostPort ip port)) := by
  induction ips generalizing errors s fails with
  | nil => simp [attempts] at hat
  | cons ip rest ih =>
    rcases hc : txp.connect ctx network (JoinHostPort ip port) s with ⟨⟨c, e⟩, s1⟩
    rw [attempts_cons txp ctx network port ip rest s s1 c e hc] at hat
    cases fails with
    | nil =>
      simp at hat
      obtain ⟨⟨rfl, rfl⟩, -⟩ := hat
      simp [connectLoop, hc]
    | cons f fs =>
      simp at hat
      obtain ⟨rfl, hrest⟩ := hat
      cases e with
      | none => exact absurd rfl (hfail (c, none) (List.mem_cons_self _ _))
      | some err =>
        obtain ⟨h1, h2, h3⟩ :=
          ih (errors ++ [err]) s1 fs hrest (fun a ha => hfail a (List.mem_cons_of_mem _ ha))
        simp [connectLoop, hc, h1, h2, h3]

/-- A list of answers with a success in it splits at its first success. -/
theorem exists_first_success (l : List (Option Conn × Option Error))
    (h : ∃ a ∈ l, a.2 = none) :
    ∃ fails conn later, l = fails ++ (conn, none) :: later ∧ ∀ a ∈ fails, a.2 ≠ none := by
  induction l with
  | nil => simp at h
  | cons x xs ih =>
    rcases x with ⟨c, e⟩
    cases e with
    | none => exact ⟨[], c, xs, rfl, by simp⟩
    | some err =>
      have h2 : ∃ a ∈ xs, a.2 = none := by
        obtain ⟨a, ha, hn⟩ := h
        rcases List.mem_cons.1 ha with rfl | ha2
        · simp at hn
        · exact ⟨a, ha2, hn⟩
      obtain ⟨fails, conn, later, heq, hf⟩ := ih h2
      refine ⟨(c, some err) :: fails, conn, later, by simp [heq], ?_⟩
      intro a ha
      rcases List.mem_cons.1 ha with rfl | ha2
      · simp
      · exact hf a ha2

theorem connectCalls_append (xs ys : List (Call Ctx)) :
    connectCalls (xs ++ ys) = connectCalls xs ++ connectCalls ys := by
  induction xs with
  | nil => rfl
  | cons x xs ih => cases x <;> simp [connectCalls, ih]

theorem lookupCalls_append (xs ys : List (Call Ctx)) :
    lookupCalls (xs ++ ys) = lookupCalls xs ++ lookupCalls ys := by
  induction xs with
  | nil => rfl
  | cons x xs ih => cases x <;> simp [lookupCalls, ih]

theorem connectCalls_map_connect (ctx : Ctx) (network port : String) (ips : List String) :
    connectCalls (ips.map (fun ip => Call.connect ctx network (JoinHostPort ip port)))
      = ips.map (fun ip => (ctx, network, JoinHostPort ip port)) := by
  induction ips with
  | nil => rfl
  | cons ip rest ih => simp [connectCalls, ih]

theorem lookupCalls_map_connect (ctx : Ctx) (network port : String) (ips : List String) :
    lookupCalls (ips.map (fun ip => Call.connect ctx network (JoinHostPort ip port))) = [] := by
  induction ips with
  | nil => rfl
  | cons ip rest ih => simp [lookupCalls, ih]

/-- `doDialContext` when the address does not parse. -/
theorem doDialContext_split_err (txp : Transport σ Ctx Conn) (ctx : Ctx)
    (network addr : String) (s : σ) (hostname port : String) (e : Error)
    (hsplit : SplitHostPort addr = (hostname, port, some e)) :
    doDialContext txp ctx network addr s = ⟨none, some e, s, []⟩ := by
  simp [doDialContext, hsplit]

/-- `doDialContext` when the resolver fails. -/
theorem doDialContext_lookup_err (txp : Transport σ Ctx Conn) (ctx : Ctx)
    (network addr : String) (s s1 : σ) (hostname port : String) (ips : List String)
    (e : Error) (hsplit : SplitHostPort addr = (hostname, port, none))
    (hlookup : txp.LookupHost ctx hostname s = ((ips, some e), s1)) :
    doDialContext txp ctx network addr s
      = ⟨none, some e, s1, [.LookupHost ctx hostname]⟩ := by
  simp [doDialContext, hsplit, hlookup]

/-- `doDialContext` when the resolver succeeds: the loop runs on its list. -/
theorem doDialContext_lookup_ok (txp : Transport σ Ctx Conn) (ctx : Ctx)
    (network addr : String) (s s1 : σ) (hostname port : String) (ips : List String)
    (hsplit : SplitHostPort addr = (hostname, port, none))
    (hlookup : txp.LookupHost ctx hostname s = ((ips, none), s1)) :
    doDialContext txp ctx network addr s
      = { connectLoop txp ctx network port ips [] s1 with
          calls := .LookupHost ctx hostname ::
            (connectLoop txp ctx network port ips [] s1).calls } := by
  simp [doDialContext, hsplit, hlookup]

/-- Without a proxy, `DialContext` returns what `doDialContext` returns in
the state left by the first log line, the error put in an `ErrDial`; the
resolver and connector calls are those of `doDialContext`. -/
theorem dialContext_direct (txp : Transport σ Ctx Conn) (ctx : Ctx)
    (network address : String) (s : σ) (hproxy : proxyConfigured txp ctx = false) :
    (DialContext txp ctx network address s).err
      = (doDialContext txp ctx network address (dialState txp ctx network address s)).err.map
          Error.ErrDial ∧
    ((doDialContext txp ctx network address (dialState txp ctx network address s)).err = none →
      (DialContext txp ctx network address s).conn
        = (doDialContext txp ctx network address (dialState txp ctx network address s)).conn) ∧
    ((doDialContext txp ctx network address (dialState txp ctx network address s)).err ≠ none →
      (DialContext txp ctx network address s).conn = none) ∧
    lookupCalls (DialContext txp ctx network address s).calls
      = lookupCalls
          (doDialContext txp ctx network address (dialState txp ctx network address s)).calls ∧
    connectCalls (DialContext txp ctx network address s).calls
      = connectCalls
          (doDialContext txp ctx network address (dialState txp ctx network address s)).calls := by
  unfold DialContext directDialContext dialState
  simp only [hproxy]
  cases hd : (doDialContext txp ctx network address
      (txp.Debugf ctx "dial: %s/%s..." [.str address, .str network] s)).err with
  | none => simp [connectCalls, lookupCalls, connectCalls_append, lookupCalls_append]
  | some e => simp [connectCalls, lookupCalls, connectCalls_append, lookupCalls_append]

/-! ## The claims -/

/-- C1: when the settings attached to the context are non-nil and carry a
non-nil `Proxy`, `DialContext` returns no connection and the error
`ErrDial` carrying `ErrProxyNotImplemented`, makes no collaborator call at
all (so neither the resolver nor the connector is invoked) and leaves the
world state as it was; when the settings are nil or their `Proxy` is nil,
the request goes to `directDialContext` with the same arguments, whose
connection is returned on success and whose error is returned in `ErrDial`. -/
theorem dialContext_proxy_gate (txp : Transport σ Ctx Conn) (ctx : Ctx)
    (network address : String) (s : σ) :
    (∀ settings proxy, txp.ContextSettings ctx = some settings →
        settings.Proxy = some proxy →
        (DialContext txp ctx network address s).conn = none ∧
        (DialContext txp ctx network address s).err
          = some (.ErrDial .ErrProxyNotImplemented) ∧
        (DialContext txp ctx network address s).calls = [] ∧
        (DialContext txp ctx network address s).state = s) ∧
    ((txp.ContextSettings ctx = none ∨
        ∃ settings, txp.ContextSettings ctx = some settings ∧ settings.Proxy = none) →
        (DialContext txp ctx network address s).state
          = (directDialContext txp ctx network address s).state ∧
        (DialContext txp ctx network address s).calls
          = (directDialContext txp ctx network address s).calls ∧
        ((directDialContext txp ctx network address s).err = none →
          (DialContext txp ctx network address s).err = none ∧
          (DialContext txp ctx network address s).conn
            = (directDialContext txp ctx network address s).conn) ∧
        (∀ e, (directDialContext txp ctx network address s).err = some e →
          (DialContext txp ctx network address s).err = some (.ErrDial e) ∧
          (DialContext txp ctx network address s).conn = none)) := by
  constructor
  · intro settings proxy hs hp
    have hproxy : proxyConfigured txp ctx = true := by simp [proxyConfigured, hs, hp]
    simp [DialContext, hproxy]
  · intro h
    have hproxy : proxyConfigured txp ctx = false := by
      rcases h with h | ⟨settings, hs, hp⟩
      · simp [proxyConfigured, h]
      · simp [proxyConfigured, hs, hp]
    unfold DialContext
    simp only [hproxy]
    cases hd : (directDialContext txp ctx network address s).err with
    | none => simp
    | some e => simp

/-- C1 at an example: with a proxy in the settings the dial of
`example.com:443` fails with `ErrDial{ErrProxyNotImplemented}` and makes no
call; with nil settings it returns the result of `directDialContext`. -/
theorem dialContext_proxy_gate_witness :
    ((DialContext (exampleTransport ["10.0.0.1"] ["10.0.0.1:443"])
        (some ⟨some "socks5://127.0.0.1:9050"⟩) "tcp" "example.com:443" 0).conn = none ∧
      (DialContext (exampleTransport ["10.0.0.1"] ["10.0.0.1:443"])
        (some ⟨some "socks5://127.0.0.1:9050"⟩) "tcp" "example.com:443" 0).err
        = some (.ErrDial .ErrProxyNotImplemented) ∧
      (DialContext (exampleTransport ["10.0.0.1"] ["10.0.0.1:443"])
        (some ⟨some "socks5://127.0.0.1:9050"⟩) "tcp" "example.com:443" 0).calls = [] ∧
      (DialContext (exampleTransport ["10.0.0.1"] ["10.0.0.1:443"])
        (some ⟨some "socks5://127.0.0.1:9050"⟩) "tcp" "example.com:443" 0).state = 0) ∧
    (DialContext (exampleTransport ["10.0.0.1"] ["10.0.0.1:443"])
        none "tcp" "example.com:443" 0).calls
      = (directDialContext (exampleTransport ["10.0.0.1"] ["10.0.0.1:443"])
        none "tcp" "example.com:443" 0).calls :=
  ⟨(dialContext_proxy_gate (exampleTransport ["10.0.0.1"] ["10.0.0.1:443"])
      (some ⟨some "socks5://127.0.0.1:9050"⟩) "tcp" "example.com:443" 0).1
      ⟨some "socks5://127.0.0.1:9050"⟩ "socks5://127.0.0.1:9050" rfl rfl,
   ((dialContext_proxy_gate (exampleTransport ["10.0.0.1"] ["10.0.0.1:443"])
      none "tcp" "example.com:443" 0).2 (Or.inl rfl)).2.1⟩

/-- C2: without a proxy, for an address that parses and a resolver that
returns the list `ips` without error, if at least one connector answer for
the endpoints of `ips`, tried in list order, is a success, then the answers
split into failures, a first success `conn`, and the rest; `DialContext`
returns exactly `conn` with a nil error, so no error of the earlier failed
attempts is in the result, and its connector calls are those for the ips up
to and including the first that connects, in list order, and no other. -/
theorem dialContext_first_success (txp : Transport σ Ctx Conn) (ctx : Ctx)
    (network address : String) (s s1 : σ) (hostname port : String) (ips : List String)
    (hproxy : proxyConfigured txp ctx = false)
    (hsplit : SplitHostPort address = (hostname, port, none))
    (hlookup : txp.LookupHost ctx hostname (dialState txp ctx network address s)
      = ((ips, none), s1))
    (hsome : ∃ a ∈ attempts txp ctx network port ips s1, a.2 = none) :
    ∃ fails conn later,
      attempts txp ctx network port ips s1 = fails ++ (conn, none) :: later ∧
      (∀ a ∈ fails, a.2 ≠ none) ∧
      (DialContext txp ctx network address s).conn = conn ∧
      (DialContext txp ctx network address s).err = none ∧
      connectCalls (DialContext txp ctx network address s).calls
        = (ips.take (fails.length + 1)).map (fun ip => (ctx, network, JoinHostPort ip port)) := by
  obtain ⟨fails, conn, later, hat, hfail⟩ := exists_first_success _ hsome
  obtain ⟨h1, h2, h3⟩ :=
    connectLoop_first_success txp ctx network port ips [] s1 fails later conn hat hfail
  obtain ⟨d1, d2, -, -, d5⟩ := dialContext_direct txp ctx network address s hproxy
  rw [doDialContext_lookup_ok txp ctx network address _ s1 hostname port ips hsplit hlookup]
    at d1 d2 d5
  refine ⟨fails, conn, later, hat, hfail, ?_, ?_, ?_⟩
  · rw [d2 (by simpa using h2)]
    simpa using h1
  · rw [d1]
    simp [h2]
  · rw [d5]
    show connectCalls (Call.LookupHost ctx hostname ::
      (connectLoop txp ctx network port ips [] s1).calls) = _
    rw [h3]
    simp only [connectCalls]
    exact connectCalls_map_connect ctx network port _

/-- C2 at the example of the specification: the resolver returns
`10.0.0.1` and `10.0.0.2`, the connector refuses `10.0.0.1:443` and accepts
`10.0.0.2:443`. -/
theorem dialContext_first_success_witness :
    ∃ fails conn later,
      attempts (exampleTransport ["10.0.0.1", "10.0.0.2"] ["10.0.0.2:443"])
        none "tcp" "443" ["10.0.0.1", "10.0.0.2"] 1 = fails ++ (conn, none) :: later ∧
      (∀ a ∈ fails, a.2 ≠ none) ∧
      (DialContext (exampleTransport ["10.0.0.1", "10.0.0.2"] ["10.0.0.2:443"])
        none "tcp" "example.com:443" 0).conn = conn ∧
      (DialContext (exampleTransport ["10.0.0.1", "10.0.0.2"] ["10.0.0.2:443"])
        none "tcp" "example.com:443" 0).err = none ∧
      connectCalls (DialContext (exampleTransport ["10.0.0.1", "10.0.0.2"] ["10.0.0.2:443"])
        none "tcp" "example.com:443" 0).calls
        = (["10.0.0.1", "10.0.0.2"].take (fails.length + 1)).map
            (fun ip => (none, "tcp", JoinHostPort ip "443")) :=
  dialContext_first_success (exampleTransport ["10.0.0.1", "10.0.0.2"] ["10.0.0.2:443"])
    none "tcp" "example.com:443" 0 1 "example.com" "443" ["10.0.0.1", "10.0.0.2"]
    rfl rfl rfl
    ⟨(some "10.0.0.2:443", none), List.Mem.tail _ (List.Mem.head _), rfl⟩

/-- C3: for an address that parses and a resolver that returns the list
`ips` without error, if every connector answer for the endpoints of `ips`,
tried in list order, is a failure, then `doDialContext` returns no
connection and an `ErrAllConnectsFailed` whose `Errors` has exactly as many
entries as `ips`, the i-th of them being the error the connector returned
at the i-th attempt; and, without a proxy, a `DialContext` whose
`doDialContext` runs in that state returns this aggregate inside `ErrDial`. -/
theorem doDialContext_all_connects_failed (txp : Transport σ Ctx Conn) (ctx : Ctx)
    (network address : String) (s0 s1 : σ) (hostname port : String) (ips : List String)
    (hsplit : SplitHostPort address = (hostname, port, none))
    (hlookup : txp.LookupHost ctx hostname s0 = ((ips, none), s1))
    (hfail : ∀ a ∈ attempts txp ctx network port ips s1, a.2 ≠ none) :
    ∃ errs : List Error,
      errs.length = ips.length ∧
      errs.map some = (attempts txp ctx network port ips s1).map (·.2) ∧
      (doDialContext txp ctx network address s0).err = some (.ErrAllConnectsFailed errs) ∧
      (doDialContext txp ctx network address s0).conn = none ∧
      ∀ s, proxyConfigured txp ctx = false → dialState txp ctx network address s = s0 →
        (DialContext txp ctx network address s).err
          = some (.ErrDial (.ErrAllConnectsFailed errs)) ∧
        (DialContext txp ctx network address s).conn = none := by
  obtain ⟨errs, h1, h2, h3, -⟩ := connectLoop_all_fail txp ctx network port ips [] s1 hfail
  have hd := doDialContext_lookup_ok txp ctx network address s0 s1 hostname port ips
    hsplit hlookup
  have herr : (doDialContext txp ctx network address s0).err
      = some (.ErrAllConnectsFailed errs) := by
    rw [hd]
    simpa using h2
  refine ⟨errs, ?_, h1, herr, ?_, ?_⟩
  · have := congrArg List.length h1
    simpa [attempts_length] using this
  · rw [hd]
    simpa using h3
  · intro s hproxy hs
    obtain ⟨d1, -, d3, -, -⟩ := dialContext_direct txp ctx network address s hproxy
    rw [hs] at d1 d3
    exact ⟨by rw [d1, herr]; rfl, d3 (by rw [herr]; simp)⟩

/-- C3 at the example of the specification: the resolver returns
`10.0.0.1` and `10.0.0.2` and the connector refuses both. -/
theorem doDialContext_all_connects_failed_witness :
    ∃ errs : List Error,
      errs.length = ["10.0.0.1", "10.0.0.2"].length ∧
      errs.map some
        = (attempts (exampleTransport ["10.0.0.1", "10.0.0.2"] [])
            none "tcp" "443" ["10.0.0.1", "10.0.0.2"] 1).map (·.2) ∧
      (doDialContext (exampleTransport ["10.0.0.1", "10.0.0.2"] [])
        none "tcp" "example.com:443" 0).err = some (.ErrAllConnectsFailed errs) ∧
      (doDialContext (exampleTransport ["10.0.0.1", "10.0.0.2"] [])
        none "tcp" "example.com:443" 0).conn = none ∧
      ∀ s, proxyConfigured (exampleTransport ["10.0.0.1", "10.0.0.2"] []) none = false →
        dialState (exampleTransport ["10.0.0.1", "10.0.0.2"] [])
          none "tcp" "example.com:443" s = 0 →
        (DialContext (exampleTransport ["10.0.0.1", "10.0.0.2"] [])
          none "tcp" "example.com:443" s).err
          = some (.ErrDial (.ErrAllConnectsFailed errs)) ∧
        (DialContext (exampleTransport ["10.0.0.1", "10.0.0.2"] [])
          none "tcp" "example.com:443" s).conn = none :=
  doDialContext_all_connects_failed (exampleTransport ["10.0.0.1", "10.0.0.2"] [])
    none "tcp" "example.com:443" 0 1 "example.com" "443" ["10.0.0.1", "10.0.0.2"]
    rfl rfl (by
      intro a ha
      have hl : attempts (exampleTransport ["10.0.0.1", "10.0.0.2"] [])
          none "tcp" "443" ["10.0.0.1", "10.0.0.2"] 1
          = [(none, some (.Other "connection refused: 10.0.0.1:443")),
             (none, some (.Other "connection refused: 10.0.0.2:443"))] := rfl
      rw [hl] at ha
      simp at ha
      rcases ha with rfl | rfl <;> simp)

/-! ### Calls made by a dial -/

/-- The connector calls of the loop are those for the first
`attemptedCount` ips, whatever the answers are. -/
theorem connectLoop_calls (txp : Transport σ Ctx Conn) (ctx : Ctx) (network port : String)
    (ips : List String) (errors : List Error) (s : σ) :
    (connectLoop txp ctx network port ips errors s).calls
      = (ips.take (attemptedCount (attempts txp ctx network port ips s))).map
          (fun ip => .connect ctx network (JoinHostPort ip port)) := by
  induction ips generalizing errors s with
  | nil => simp [connectLoop]
  | cons ip rest ih =>
    rcases hc : txp.connect ctx network (JoinHostPort ip port) s with ⟨⟨c, e⟩, s1⟩
    rw [attempts_cons txp ctx network port ip rest s s1 c e hc]
    cases e with
    | none => simp [connectLoop, hc, attemptedCount]
    | some err => simp [connectLoop, hc, attemptedCount, ih]

/-- The loop ends either in a success or in an aggregate that extends
`errors` by one entry for each ip. -/
theorem connectLoop_err (txp : Transport σ Ctx Conn) (ctx : Ctx) (network port : String)
    (ips : List String) (errors : List Error) (s : σ) :
    (connectLoop txp ctx network port ips errors s).err = none ∨
    ∃ errs : List Error, errs.length = ips.length ∧
      (connectLoop txp ctx network port ips errors s).err
        = some (.ErrAllConnectsFailed (errors ++ errs)) := by
  induction ips generalizing errors s with
  | nil => exact Or.inr ⟨[], rfl, by simp [connectLoop]⟩
  | cons ip rest ih =>
    rcases hc : txp.connect ctx network (JoinHostPort ip port) s with ⟨⟨c, e⟩, s1⟩
    cases e with
    | none => exact Or.inl (by simp [connectLoop, hc])
    | some err =>
      rcases ih (errors ++ [err]) s1 with h | ⟨errs, hl, h⟩
      · exact Or.inl (by simp [connectLoop, hc, h])
      · exact Or.inr ⟨err :: errs, by simp [hl], by simp [connectLoop, hc, h]⟩

theorem attemptedCount_first_success (fails later : List (Option Conn × Option Error))
    (conn : Option Conn) (hfail : ∀ a ∈ fails, a.2 ≠ none) :
    attemptedCount (fails ++ (conn, none) :: later) = fails.length + 1 := by
  induction fails with
  | nil => simp [attemptedCount]
  | cons f fs ih =>
    rcases f with ⟨c, e⟩
    cases e with
    | none => exact absurd rfl (hfail (c, none) (List.mem_cons_self _ _))
    | some err =>
      simp [attemptedCount, ih (fun a ha => hfail a (List.mem_cons_of_mem _ ha))]

theorem attemptedCount_all_fail (l : List (Option Conn × Option Error))
    (hfail : ∀ a ∈ l, a.2 ≠ none) : attemptedCount l = l.length := by
  induction l with
  | nil => rfl
  | cons f fs ih =>
    rcases f with ⟨c, e⟩
    cases e with
    | none => exact absurd rfl (hfail (c, none) (List.mem_cons_self _ _))
    | some err =>
      simp [attemptedCount, ih (fun a ha => hfail a (List.mem_cons_of_mem _ ha))]

/-- The resolver and connector calls of `doDialContext`, case by case. -/
theorem doDialContext_calls (txp : Transport σ Ctx Conn) (ctx : Ctx)
    (network addr : String) (s : σ) :
    (lookupCalls (doDialContext txp ctx network addr s).calls = [] ∨
      lookupCalls (doDialContext txp ctx network addr s).calls
        = [(ctx, (SplitHostPort addr).1)]) ∧
    (((SplitHostPort addr).2.2 ≠ none ∨
        (txp.LookupHost ctx (SplitHostPort addr).1 s).1.2 ≠ none) →
      connectCalls (doDialContext txp ctx network addr s).calls = []) ∧
    (∀ hostname port ips s1, SplitHostPort addr = (hostname, port, none) →
      txp.LookupHost ctx hostname s = ((ips, none), s1) →
      connectCalls (doDialContext txp ctx network addr s).calls
        = (ips.take (attemptedCount (attempts txp ctx network port ips s1))).map
            (fun ip => (ctx, network, JoinHostPort ip port))) := by
  rcases hsp : SplitHostPort addr with ⟨hostname, port, perr⟩
  cases perr with
  | some e =>
    rw [doDialContext_split_err txp ctx network addr s hostname port e hsp]
    simp [lookupCalls, connectCalls]
  | none =>
    rcases hl : txp.LookupHost ctx hostname s with ⟨⟨ips, rerr⟩, s1⟩
    cases rerr with
    | some e =>
      rw [doDialContext_lookup_err txp ctx network addr s s1 hostname port ips e hsp hl]
      refine ⟨Or.inr (by simp [lookupCalls]), by simp [connectCalls], ?_⟩
      intro hostname2 port2 ips2 s2 h1 h2
      simp only [Prod.mk.injEq] at h1
      obtain ⟨rfl, rfl, -⟩ := h1
      rw [hl] at h2
      simp at h2
    | none =>
      rw [doDialContext_lookup_ok txp ctx network addr s s1 hostname port ips hsp hl]
      refine ⟨Or.inr ?_, ?_, ?_⟩
      · show lookupCalls (Call.LookupHost ctx hostname ::
          (connectLoop txp ctx network port ips [] s1).calls) = _
        rw [connectLoop_calls]
        simp only [lookupCalls]
        rw [lookupCalls_map_connect]
      · simp [hl]
      · intro hostname2 port2 ips2 s2 h1 h2
        simp only [Prod.mk.injEq] at h1
        obtain ⟨rfl, rfl, -⟩ := h1
        rw [hl] at h2
        simp only [Prod.mk.injEq] at h2
        obtain ⟨⟨rfl, -⟩, rfl⟩ := h2
        show connectCalls (Call.LookupHost ctx hostname ::
          (connectLoop txp ctx network port ips [] s1).calls) = _
        rw [connectLoop_calls]
        simp only [connectCalls]
        exact connectCalls_map_connect ctx network port _

/-- C4: in every `DialContext` call the resolver is called at most once,
and only with the hostname part of the address; the connector calls are the
endpoints of a prefix of the resolver list, in list order with every
occurrence kept: of the whole list when every attempt fails, and of the
entries up to and including the first one that connects otherwise; when a
proxy is configured, the address does not parse or the resolver fails, the
connector is not called. -/
theorem dialContext_call_order (txp : Transport σ Ctx Conn) (ctx : Ctx)
    (network address : String) (s : σ) :
    (lookupCalls (DialContext txp ctx network address s).calls).length ≤ 1 ∧
    (∀ c ∈ lookupCalls (DialContext txp ctx network address s).calls,
      c = (ctx, (SplitHostPort address).1)) ∧
    (∀ hostname port ips s1, proxyConfigured txp ctx = false →
      SplitHostPort address = (hostname, port, none) →
      txp.LookupHost ctx hostname (dialState txp ctx network address s) = ((ips, none), s1) →
      ∃ n, connectCalls (DialContext txp ctx network address s).calls
          = (ips.take n).map (fun ip => (ctx, network, JoinHostPort ip port)) ∧
        ((∀ a ∈ attempts txp ctx network port ips s1, a.2 ≠ none) → n = ips.length) ∧
        (∀ fails conn later,
          attempts txp ctx network port ips s1 = fails ++ (conn, none) :: later →
          (∀ a ∈ fails, a.2 ≠ none) → n = fails.length + 1)) ∧
    ((proxyConfigured txp ctx = true ∨ (SplitHostPort address).2.2 ≠ none ∨
        (txp.LookupHost ctx (SplitHostPort address).1
          (dialState txp ctx network address s)).1.2 ≠ none) →
      connectCalls (DialContext txp ctx network address s).calls = []) := by
  cases hproxy : proxyConfigured txp ctx with
  | true => simp [DialContext, hproxy, lookupCalls, connectCalls]
  | false =>
    obtain ⟨-, -, -, d4, d5⟩ := dialContext_direct txp ctx network address s hproxy
    obtain ⟨c1, c2, c3⟩ :=
      doDialContext_calls txp ctx network address (dialState txp ctx network address s)
    rw [d4, d5]
    refine ⟨?_, ?_, ?_, ?_⟩
    · rcases c1 with h | h <;> simp [h]
    · intro c hc
      rcases c1 with h | h
      · simp [h] at hc
      · simpa [h] using hc
    · intro hostname port ips s1 _ hsp hl
      refine ⟨_, c3 hostname port ips s1 hsp hl, ?_, ?_⟩
      · intro hfail
        rw [attemptedCount_all_fail _ hfail, attempts_length]
      · intro fails conn later hat hfail
        rw [hat, attemptedCount_first_success fails later conn hfail]
    · intro h
      rcases h with h | h | h
      · simp at h
      · exact c2 (Or.inl h)
      · exact c2 (Or.inr h)

/-- C4 at an example with a repeated ip: the resolver lists `10.0.0.1`
twice and then `10.0.0.2`; the connector refuses the first call and accepts
the second. The resolver is called once, with `example.com`; the connector
is called on `10.0.0.1:443` twice and not on `10.0.0.2:443`. -/
theorem dialContext_call_order_witness :
    (lookupCalls (DialContext
        (scriptedTransport (["10.0.0.1", "10.0.0.1", "10.0.0.2"], none)) none "tcp"
        "example.com:443"
        [(none, some (.Other "connection refused")), (some "conn", none)]).calls).length ≤ 1 ∧
    lookupCalls (DialContext
        (scriptedTransport (["10.0.0.1", "10.0.0.1", "10.0.0.2"], none)) none "tcp"
        "example.com:443"
        [(none, some (.Other "connection refused")), (some "conn", none)]).calls
      = [(none, "example.com")] ∧
    connectCalls (DialContext
        (scriptedTransport (["10.0.0.1", "10.0.0.1", "10.0.0.2"], none)) none "tcp"
        "example.com:443"
        [(none, some (.Other "connection refused")), (some "conn", none)]).calls
      = [(none, "tcp", "10.0.0.1:443"), (none, "tcp", "10.0.0.1:443")] :=
  ⟨(dialContext_call_order
      (scriptedTransport (["10.0.0.1", "10.0.0.1", "10.0.0.2"], none)) none "tcp"
      "example.com:443"
      [(none, some (.Other "connection refused")), (some "conn", none)]).1, rfl, rfl⟩

/-! ### Failures before the connection phase -/

/-- An error is never one of the entries of an aggregate it is equal to. -/
theorem not_mem_own_aggregate (e : Error) (errs : List Error) (h : e ∈ errs) :
    e ≠ .ErrAllConnectsFailed errs := by
  intro he
  have hlt := List.sizeOf_lt_of_mem h
  rw [he] at hlt
  simp at hlt

/-- C5, refuted as stated: `net.SplitHostPort` fails on the address
`example.com`, which has no port, yet with a proxy in the settings the
cause carried by the error of `DialContext` is `ErrProxyNotImplemented`
and not the error of the parser: the proxy check answers before the address is
parsed. -/
theorem dialContext_malformed_address_counterexample :
    SplitHostPort "example.com"
      = ("", "", some (.AddrError "missing port in address" "example.com")) ∧
    (DialContext (exampleTransport ["10.0.0.1"] ["10.0.0.1:443"])
      (some ⟨some "socks5://127.0.0.1:9050"⟩) "tcp" "example.com" 0).err
      = some (.ErrDial .ErrProxyNotImplemented) ∧
    Error.Unwrap (.ErrDial .ErrProxyNotImplemented)
      ≠ some (.AddrError "missing port in address" "example.com") :=
  ⟨rfl, rfl, by simp [Error.Unwrap]⟩

/-- C5, amended: for every address on which `net.SplitHostPort` fails,
`DialContext` returns no connection and an `ErrDial`, and calls neither the
resolver nor the connector; when no proxy is configured the cause that
`Unwrap` gives is exactly the error of the parser, unchanged, and when a
proxy is configured it is `ErrProxyNotImplemented`. -/
theorem dialContext_malformed_address (txp : Transport σ Ctx Conn) (ctx : Ctx)
    (network address : String) (s : σ) (hostname port : String) (e : Error)
    (hsplit : SplitHostPort address = (hostname, port, some e)) :
    (DialContext txp ctx network address s).conn = none ∧
    lookupCalls (DialContext txp ctx network address s).calls = [] ∧
    connectCalls (DialContext txp ctx network address s).calls = [] ∧
    ∃ cause, (DialContext txp ctx network address s).err = some (.ErrDial cause) ∧
      Error.Unwrap (.ErrDial cause) = some cause ∧
      (proxyConfigured txp ctx = false → cause = e) ∧
      (proxyConfigured txp ctx = true → cause = .ErrProxyNotImplemented) := by
  cases hproxy : proxyConfigured txp ctx with
  | true => simp [DialContext, hproxy, lookupCalls, connectCalls, Error.Unwrap]
  | false =>
    obtain ⟨d1, -, d3, d4, d5⟩ := dialContext_direct txp ctx network address s hproxy
    rw [doDialContext_split_err txp ctx network address _ hostname port e hsplit]
      at d1 d3 d4 d5
    refine ⟨d3 (by simp), by simpa [lookupCalls] using d4,
      by simpa [connectCalls] using d5, e, by simpa using d1, rfl, by simp⟩

/-- C5 amended, at an example: the address `example.com` has no port and
no proxy is configured. -/
theorem dialContext_malformed_address_witness :
    (DialContext (exampleTransport ["10.0.0.1"] ["10.0.0.1:443"]) none "tcp"
      "example.com" 0).conn = none ∧
    lookupCalls (DialContext (exampleTransport ["10.0.0.1"] ["10.0.0.1:443"]) none "tcp"
      "example.com" 0).calls = [] ∧
    connectCalls (DialContext (exampleTransport ["10.0.0.1"] ["10.0.0.1:443"]) none "tcp"
      "example.com" 0).calls = [] ∧
    ∃ cause, (DialContext (exampleTransport ["10.0.0.1"] ["10.0.0.1:443"]) none "tcp"
        "example.com" 0).err = some (.ErrDial cause) ∧
      Error.Unwrap (.ErrDial cause) = some cause ∧
      (proxyConfigured (exampleTransport ["10.0.0.1"] ["10.0.0.1:443"]) none = false →
        cause = .AddrError "missing port in address" "example.com") ∧
      (proxyConfigured (exampleTransport ["10.0.0.1"] ["10.0.0.1:443"]) none = true →
        cause = .ErrProxyNotImplemented) :=
  dialContext_malformed_address (exampleTransport ["10.0.0.1"] ["10.0.0.1:443"]) none "tcp"
    "example.com" 0 "" "" (.AddrError "missing port in address" "example.com") rfl

/-- C6: without a proxy and for an address that parses, when the resolver,
called on the hostname, returns the error `e` (a cancellation error
included), `DialContext` returns no connection and `ErrDial` carrying
exactly `e`: `Unwrap` gives `e`, the returned cause is no aggregate that
has `e` among its entries, it is an `ErrAllConnectsFailed` only if `e`
itself is one, and the connector is not called. -/
theorem dialContext_resolver_error (txp : Transport σ Ctx Conn) (ctx : Ctx)
    (network address : String) (s s1 : σ) (hostname port : String) (ips : List String)
    (e : Error) (hproxy : proxyConfigured txp ctx = false)
    (hsplit : SplitHostPort address = (hostname, port, none))
    (hlookup : txp.LookupHost ctx hostname (dialState txp ctx network address s)
      = ((ips, some e), s1)) :
    (DialContext txp ctx network address s).err = some (.ErrDial e) ∧
    Error.Unwrap (.ErrDial e) = some e ∧
    (DialContext txp ctx network address s).conn = none ∧
    connectCalls (DialContext txp ctx network address s).calls = [] ∧
    (∀ errs, e ∈ errs →
      (DialContext txp ctx network address s).err
        ≠ some (.ErrDial (.ErrAllConnectsFailed errs))) ∧
    ((∀ errs, e ≠ .ErrAllConnectsFailed errs) →
      ∀ errs, (DialContext txp ctx network address s).err
        ≠ some (.ErrDial (.ErrAllConnectsFailed errs))) := by
  obtain ⟨d1, -, d3, -, d5⟩ := dialContext_direct txp ctx network address s hproxy
  rw [doDialContext_lookup_err txp ctx network address _ s1 hostname port ips e hsplit
    hlookup] at d1 d3 d5
  have herr : (DialContext txp ctx network address s).err = some (.ErrDial e) := by
    simpa using d1
  refine ⟨herr, rfl, d3 (by simp), by simpa [connectCalls] using d5, ?_, ?_⟩
  · intro errs hmem heq
    rw [herr] at heq
    simp only [Option.some.injEq, Error.ErrDial.injEq] at heq
    exact not_mem_own_aggregate e errs hmem heq
  · intro hne errs heq
    rw [herr] at heq
    simp only [Option.some.injEq, Error.ErrDial.injEq] at heq
    exact hne errs heq

/-- C6 at an example: the resolver returns `context.Canceled`. -/
theorem dialContext_resolver_error_witness :
    (DialContext (scriptedTransport ([], some .Canceled)) none "tcp"
      "example.com:443" [(some "conn", none)]).err = some (.ErrDial .Canceled) ∧
    Error.Unwrap (.ErrDial .Canceled) = some .Canceled ∧
    (DialContext (scriptedTransport ([], some .Canceled)) none "tcp"
      "example.com:443" [(some "conn", none)]).conn = none ∧
    connectCalls (DialContext (scriptedTransport ([], some .Canceled)) none "tcp"
      "example.com:443" [(some "conn", none)]).calls = [] ∧
    (∀ errs, Error.Canceled ∈ errs →
      (DialContext (scriptedTransport ([], some .Canceled)) none "tcp"
        "example.com:443" [(some "conn", none)]).err
        ≠ some (.ErrDial (.ErrAllConnectsFailed errs))) ∧
    ((∀ errs, Error.Canceled ≠ .ErrAllConnectsFailed errs) →
      ∀ errs, (DialContext (scriptedTransport ([], some .Canceled)) none "tcp"
        "example.com:443" [(some "conn", none)]).err
        ≠ some (.ErrDial (.ErrAllConnectsFailed errs))) :=
  dialContext_resolver_error (scriptedTransport ([], some .Canceled)) none "tcp"
    "example.com:443" [(some "conn", none)] [(some "conn", none)] "example.com" "443" []
    .Canceled rfl rfl rfl

/-- The loop ends in a success, or every attempt failed and it ends in the
aggregate of the errors of the attempts, in order. -/
theorem connectLoop_result (txp : Transport σ Ctx Conn) (ctx : Ctx) (network port : String)
    (ips : List String) (s : σ) :
    (connectLoop txp ctx network port ips [] s).err = none ∨
    ∃ errs : List Error,
      errs.map some = (attempts txp ctx network port ips s).map (·.2) ∧
      (connectLoop txp ctx network port ips [] s).err = some (.ErrAllConnectsFailed errs) ∧
      (connectLoop txp ctx network port ips [] s).conn = none := by
  by_cases h : ∃ a ∈ attempts txp ctx network port ips s, a.2 = none
  · obtain ⟨fails, conn, later, hat, hfail⟩ := exists_first_success _ h
    exact Or.inl
      (connectLoop_first_success txp ctx network port ips [] s fails later conn hat hfail).2.1
  · have hfail : ∀ a ∈ attempts txp ctx network port ips s, a.2 ≠ none :=
      fun a ha hn => h ⟨a, ha, hn⟩
    obtain ⟨errs, h1, h2, h3, -⟩ := connectLoop_all_fail txp ctx network port ips [] s hfail
    exact Or.inr ⟨errs, h1, by simpa using h2, h3⟩

/-- C7: without a proxy and for an address that parses, when the resolver
returns the empty list and no error, `DialContext` calls the connector zero
times and fails with `ErrDial` carrying an `ErrAllConnectsFailed` whose
`Errors` is empty; conversely, whenever `DialContext` returns an aggregate
whose `Errors` is empty, no proxy was configured, the connector was called
zero times, and a resolver list returned without error was the empty list. -/
theorem dialContext_empty_aggregate (txp : Transport σ Ctx Conn) (ctx : Ctx)
    (network address : String) (s : σ) :
    (∀ hostname port s1, proxyConfigured txp ctx = false →
      SplitHostPort address = (hostname, port, none) →
      txp.LookupHost ctx hostname (dialState txp ctx network address s) = (([], none), s1) →
      (DialContext txp ctx network address s).err
        = some (.ErrDial (.ErrAllConnectsFailed [])) ∧
      (DialContext txp ctx network address s).conn = none ∧
      connectCalls (DialContext txp ctx network address s).calls = []) ∧
    ((DialContext txp ctx network address s).err
        = some (.ErrDial (.ErrAllConnectsFailed [])) →
      proxyConfigured txp ctx = false ∧
      connectCalls (DialContext txp ctx network address s).calls = [] ∧
      ∀ hostname port ips s1, SplitHostPort address = (hostname, port, none) →
        txp.LookupHost ctx hostname (dialState txp ctx network address s)
          = ((ips, none), s1) →
        ips = []) := by
  constructor
  · intro hostname port s1 hproxy hsplit hlookup
    obtain ⟨d1, -, d3, -, d5⟩ := dialContext_direct txp ctx network address s hproxy
    rw [doDialContext_lookup_ok txp ctx network address _ s1 hostname port [] hsplit
      hlookup] at d1 d3 d5
    simp only [connectLoop] at d1 d3 d5
    exact ⟨by simpa using d1, d3 (by simp), by simpa [connectCalls] using d5⟩
  · intro herr
    cases hproxy : proxyConfigured txp ctx with
    | true => simp [DialContext, hproxy] at herr
    | false =>
      obtain ⟨d1, -, -, -, d5⟩ := dialContext_direct txp ctx network address s hproxy
      obtain ⟨-, c2, c3⟩ :=
        doDialContext_calls txp ctx network address (dialState txp ctx network address s)
      have hips : ∀ hostname port ips s1, SplitHostPort address = (hostname, port, none) →
          txp.LookupHost ctx hostname (dialState txp ctx network address s)
            = ((ips, none), s1) → ips = [] := by
        intro hostname port ips s1 hsplit hlookup
        rw [doDialContext_lookup_ok txp ctx network address _ s1 hostname port ips hsplit
          hlookup, herr] at d1
        rcases connectLoop_err txp ctx network port ips [] s1 with h | ⟨errs, hl, h⟩
        · simp [h] at d1
        · simp [h] at d1
          subst d1
          exact List.length_eq_zero.1 hl.symm
      refine ⟨rfl, ?_, hips⟩
      rw [d5]
      rcases hsp : SplitHostPort address with ⟨hostname, port, perr⟩
      cases perr with
      | some e => exact c2 (Or.inl (by simp [hsp]))
      | none =>
        rcases hl : txp.LookupHost ctx hostname (dialState txp ctx network address s)
          with ⟨⟨ips, rerr⟩, s1⟩
        cases rerr with
        | some e => exact c2 (Or.inr (by simp [hsp, hl]))
        | none =>
          rw [c3 hostname port ips s1 hsp hl, hips hostname port ips s1 hsp hl]
          rfl

/-- C7 at an example: the resolver returns the empty list and no error. -/
theorem dialContext_empty_aggregate_witness :
    (DialContext (scriptedTransport ([], none)) none "tcp" "example.com:443"
      [(some "conn", none)]).err = some (.ErrDial (.ErrAllConnectsFailed [])) ∧
    (DialContext (scriptedTransport ([], none)) none "tcp" "example.com:443"
      [(some "conn", none)]).conn = none ∧
    connectCalls (DialContext (scriptedTransport ([], none)) none "tcp" "example.com:443"
      [(some "conn", none)]).calls = [] :=
  (dialContext_empty_aggregate (scriptedTransport ([], none)) none "tcp" "example.com:443"
    [(some "conn", none)]).1 "example.com" "443" [(some "conn", none)] rfl rfl rfl

/-- C8: `DialContext` either succeeds, with a nil error and the connection
that `doDialContext` returned, or fails with no connection and an error
that is an `ErrDial` put once around a cause that `Unwrap` gives back
unchanged; the cause is `ErrProxyNotImplemented` when a proxy is
configured (that envelope is built at the proxy check itself), and otherwise it
is the error of `doDialContext`: the error of the parser, the error of the
resolver, or the `ErrAllConnectsFailed` aggregate of the attempt errors. -/
theorem dialContext_error_envelope (txp : Transport σ Ctx Conn) (ctx : Ctx)
    (network address : String) (s : σ) :
    ((DialContext txp ctx network address s).err = none ∧
      proxyConfigured txp ctx = false ∧
      (doDialContext txp ctx network address (dialState txp ctx network address s)).err
        = none ∧
      (DialContext txp ctx network address s).conn
        = (doDialContext txp ctx network address
            (dialState txp ctx network address s)).conn) ∨
    ∃ cause, (DialContext txp ctx network address s).err = some (.ErrDial cause) ∧
      Error.Unwrap (.ErrDial cause) = some cause ∧
      (DialContext txp ctx network address s).conn = none ∧
      ((proxyConfigured txp ctx = true ∧ cause = .ErrProxyNotImplemented) ∨
        (proxyConfigured txp ctx = false ∧
          (doDialContext txp ctx network address (dialState txp ctx network address s)).err
            = some cause ∧
          ((∃ hostname port, SplitHostPort address = (hostname, port, some cause)) ∨
            (∃ hostname port ips s1, SplitHostPort address = (hostname, port, none) ∧
              txp.LookupHost ctx hostname (dialState txp ctx network address s)
                = ((ips, some cause), s1)) ∨
            (∃ hostname port ips s1 errs, SplitHostPort address = (hostname, port, none) ∧
              txp.LookupHost ctx hostname (dialState txp ctx network address s)
                = ((ips, none), s1) ∧
              cause = .ErrAllConnectsFailed errs ∧
              errs.map some = (attempts txp ctx network port ips s1).map (·.2))))) := by
  cases hproxy : proxyConfigured txp ctx with
  | true =>
    exact Or.inr ⟨.ErrProxyNotImplemented, by simp [DialContext, hproxy], rfl,
      by simp [DialContext, hproxy], Or.inl ⟨rfl, rfl⟩⟩
  | false =>
    obtain ⟨d1, d2, d3, -, -⟩ := dialContext_direct txp ctx network address s hproxy
    cases hd : (doDialContext txp ctx network address
        (dialState txp ctx network address s)).err with
    | none => exact Or.inl ⟨by rw [d1, hd]; rfl, rfl, rfl, d2 hd⟩
    | some cause =>
      refine Or.inr ⟨cause, by rw [d1, hd]; rfl, rfl, d3 (by simp [hd]),
        Or.inr ⟨rfl, rfl, ?_⟩⟩
      rcases hsp : SplitHostPort address with ⟨hostname, port, perr⟩
      cases perr with
      | some e =>
        rw [doDialContext_split_err txp ctx network address _ hostname port e hsp] at hd
        simp only [Option.some.injEq] at hd
        subst hd
        exact Or.inl ⟨hostname, port, rfl⟩
      | none =>
        rcases hl : txp.LookupHost ctx hostname (dialState txp ctx network address s)
          with ⟨⟨ips, rerr⟩, s1⟩
        cases rerr with
        | some e =>
          rw [doDialContext_lookup_err txp ctx network address _ s1 hostname port ips e
            hsp hl] at hd
          simp only [Option.some.injEq] at hd
          subst hd
          exact Or.inr (Or.inl ⟨hostname, port, ips, s1, rfl, hl⟩)
        | none =>
          rw [doDialContext_lookup_ok txp ctx network address _ s1 hostname port ips
            hsp hl] at hd
          rcases connectLoop_result txp ctx network port ips s1 with h | ⟨errs, h1, h2, -⟩
          · simp [h] at hd
          · simp [h2] at hd
            exact Or.inr (Or.inr ⟨hostname, port, ips, s1, errs, rfl, hl, hd.symm, h1⟩)

/-! ### Cancellation during the connection phase -/

theorem attemptedCount_append_fail (before after : List (Option Conn × Option Error))
    (c : Option Conn) (e : Error) (hbefore : ∀ a ∈ before, a.2 ≠ none) :
    attemptedCount (before ++ (c, some e) :: after)
      = before.length + 1 + attemptedCount after := by
  induction before with
  | nil => simp [attemptedCount]; omega
  | cons f fs ih =>
    rcases f with ⟨c1, e1⟩
    cases e1 with
    | none => exact absurd rfl (hbefore (c1, none) (List.mem_cons_self _ _))
    | some err =>
      simp [attemptedCount, ih (fun a ha => hbefore a (List.mem_cons_of_mem _ ha))]
      omega

/-- C9, refuted as stated: the resolver returns two ips and the connector
fails both times with `context.Canceled`. After the first cancellation the
second endpoint is attempted all the same, and the error returned is an
`ErrAllConnectsFailed` aggregate, in `ErrDial`, that holds the
cancellations as ordinary entries. -/
theorem dialContext_cancellation_counterexample :
    attempts (scriptedTransport (["10.0.0.1", "10.0.0.2"], none)) none "tcp" "443"
        ["10.0.0.1", "10.0.0.2"] [(none, some .Canceled), (none, some .Canceled)]
      = [(none, some .Canceled), (none, some .Canceled)] ∧
    connectCalls (DialContext (scriptedTransport (["10.0.0.1", "10.0.0.2"], none)) none "tcp"
        "example.com:443" [(none, some .Canceled), (none, some .Canceled)]).calls
      = [(none, "tcp", "10.0.0.1:443"), (none, "tcp", "10.0.0.2:443")] ∧
    (DialContext (scriptedTransport (["10.0.0.1", "10.0.0.2"], none)) none "tcp"
        "example.com:443" [(none, some .Canceled), (none, some .Canceled)]).err
      = some (.ErrDial (.ErrAllConnectsFailed [.Canceled, .Canceled])) :=
  ⟨rfl, rfl, rfl⟩

/-- C9, amended: a connect attempt that fails with a cancellation error is
handled as any other failed attempt. With the attempts before it failed,
the connector is next called on the following endpoints, up to and
including the first that connects; if every later attempt fails too, the
dial returns `ErrDial` carrying the `ErrAllConnectsFailed` aggregate with
one entry for each ip, the cancellation error at the position of its
attempt; if a later endpoint connects, its connection is returned with a
nil error. -/
theorem dialContext_cancelled_attempt (txp : Transport σ Ctx Conn) (ctx : Ctx)
    (network address : String) (s s1 : σ) (hostname port : String) (ips : List String)
    (before after : List (Option Conn × Option Error)) (c : Option Conn)
    (hproxy : proxyConfigured txp ctx = false)
    (hsplit : SplitHostPort address = (hostname, port, none))
    (hlookup : txp.LookupHost ctx hostname (dialState txp ctx network address s)
      = ((ips, none), s1))
    (hat : attempts txp ctx network port ips s1 = before ++ (c, some .Canceled) :: after)
    (hbefore : ∀ a ∈ before, a.2 ≠ none) :
    connectCalls (DialContext txp ctx network address s).calls
      = (ips.take (before.length + 1 + attemptedCount after)).map
          (fun ip => (ctx, network, JoinHostPort ip port)) ∧
    ((∀ a ∈ after, a.2 ≠ none) →
      ∃ errs : List Error,
        (DialContext txp ctx network address s).err
          = some (.ErrDial (.ErrAllConnectsFailed errs)) ∧
        errs.length = ips.length ∧
        errs[before.length]? = some .Canceled) ∧
    (∀ fails conn later, after = fails ++ (conn, none) :: later →
      (∀ a ∈ fails, a.2 ≠ none) →
      (DialContext txp ctx network address s).err = none ∧
      (DialContext txp ctx network address s).conn = conn) := by
  obtain ⟨d1, d2, -, -, d5⟩ := dialContext_direct txp ctx network address s hproxy
  obtain ⟨-, -, c3⟩ :=
    doDialContext_calls txp ctx network address (dialState txp ctx network address s)
  have hd := doDialContext_lookup_ok txp ctx network address _ s1 hostname port ips
    hsplit hlookup
  refine ⟨?_, ?_, ?_⟩
  · rw [d5, c3 hostname port ips s1 hsplit hlookup, hat,
      attemptedCount_append_fail before after c .Canceled hbefore]
  · intro hafter
    have hfail : ∀ a ∈ attempts txp ctx network port ips s1, a.2 ≠ none := by
      rw [hat]
      intro a ha
      rcases List.mem_append.1 ha with h | h
      · exact hbefore a h
      · rcases List.mem_cons.1 h with rfl | h2
        · simp
        · exact hafter a h2
    obtain ⟨errs, h1, h2, -, -⟩ := connectLoop_all_fail txp ctx network port ips [] s1 hfail
    refine ⟨errs, ?_, ?_, ?_⟩
    · rw [d1, hd]
      simpa using h2
    · have := congrArg List.length h1
      simpa [attempts_length] using this
    · have hr : ((before ++ (c, some Error.Canceled) :: after).map (·.2))[before.length]?
          = some (some .Canceled) := by
        rw [List.map_append, List.getElem?_append_right (by simp)]
        simp
      have hget : (errs.map some)[before.length]? = some (some .Canceled) := by
        rw [h1, hat]
        exact hr
      rw [List.getElem?_map] at hget
      cases hx : errs[before.length]? with
      | none => simp [hx] at hget
      | some x => simpa [hx] using hget
  · intro fails conn later hafter hfails
    have hat2 : attempts txp ctx network port ips s1
        = (before ++ (c, some .Canceled) :: fails) ++ (conn, none) :: later := by
      rw [hat, hafter]
      simp
    have hfail2 : ∀ a ∈ before ++ (c, some .Canceled) :: fails, a.2 ≠ none := by
      intro a ha
      rcases List.mem_append.1 ha with h | h
      · exact hbefore a h
      · rcases List.mem_cons.1 h with rfl | h2
        · simp
        · exact hfails a h2
    obtain ⟨h1, h2, -⟩ :=
      connectLoop_first_success txp ctx network port ips [] s1 _ later conn hat2 hfail2
    have hnone : (doDialContext txp ctx network address
        (dialState txp ctx network address s)).err = none := by
      rw [hd]
      simpa using h2
    refine ⟨by rw [d1, hnone]; rfl, ?_⟩
    rw [d2 hnone, hd]
    simpa using h1

/-- C9 amended, at an example: the first of two attempts is cancelled, the
second is refused. -/
theorem dialContext_cancelled_attempt_witness :
    connectCalls (DialContext (scriptedTransport (["10.0.0.1", "10.0.0.2"], none)) none "tcp"
        "example.com:443" [(none, some .Canceled)]).calls
      = (["10.0.0.1", "10.0.0.2"].take
          (([] : List (Option String × Option Error)).length + 1
            + attemptedCount [((none : Option String), some (Error.Other "connection refused"))])).map
          (fun ip => (none, "tcp", JoinHostPort ip "443")) ∧
    ((∀ a ∈ [((none : Option String), some (Error.Other "connection refused"))], a.2 ≠ none) →
      ∃ errs : List Error,
        (DialContext (scriptedTransport (["10.0.0.1", "10.0.0.2"], none)) none "tcp"
          "example.com:443" [(none, some .Canceled)]).err
          = some (.ErrDial (.ErrAllConnectsFailed errs)) ∧
        errs.length = ["10.0.0.1", "10.0.0.2"].length ∧
        errs[([] : List (Option String × Option Error)).length]? = some .Canceled) ∧
    (∀ fails conn later,
      [((none : Option String), some (Error.Other "connection refused"))]
        = fails ++ (conn, none) :: later →
      (∀ a ∈ fails, a.2 ≠ none) →
      (DialContext (scriptedTransport (["10.0.0.1", "10.0.0.2"], none)) none "tcp"
        "example.com:443" [(none, some .Canceled)]).err = none ∧
      (DialContext (scriptedTransport (["10.0.0.1", "10.0.0.2"], none)) none "tcp"
        "example.com:443" [(none, some .Canceled)]).conn = conn) :=
  dialContext_cancelled_attempt (scriptedTransport (["10.0.0.1", "10.0.0.2"], none)) none
    "tcp" "example.com:443" [(none, some .Canceled)] [(none, some .Canceled)]
    "example.com" "443" ["10.0.0.1", "10.0.0.2"] []
    [(none, some (.Other "connection refused"))] none rfl rfl rfl rfl
    (fun _ h => nomatch h)

/-! ### The endpoint handed to the connector -/

theorem indexByteString_isSome (l : List Char) (c : Char) :
    (IndexByteString l c).isSome = true ↔ c ∈ l := by
  induction l with
  | nil => simp [IndexByteString]
  | cons x xs ih =>
    by_cases hx : x = c
    · simp [IndexByteString, hx]
    · have hx2 : ¬ c = x := fun h => hx h.symm
      simp [IndexByteString, hx, hx2, ih]

/-- `net.JoinHostPort` in closed form. -/
theorem joinHostPort_eq (host port : String) :
    JoinHostPort host port
      = if ':' ∈ host.toList then "[" ++ host ++ "]:" ++ port else host ++ ":" ++ port := by
  unfold JoinHostPort
  by_cases h : ':' ∈ host.toList
  · rw [if_pos ((indexByteString_isSome _ _).2 h), if_pos h]
  · rw [if_neg (fun hs => h ((indexByteString_isSome _ _).1 hs)), if_neg h]

/-- C10, refuted as stated: for the resolved ip `::1` and the port `443`
the connector is called on `[::1]:443`, which is not the ip, a colon and the
port. -/
theorem dialContext_endpoint_counterexample :
    connectCalls (DialContext (scriptedTransport (["::1"], none)) none "tcp"
        "localhost:443" [(some "conn", none)]).calls = [(none, "tcp", "[::1]:443")] ∧
    "[::1]:443" ≠ "::1" ++ ":" ++ "443" :=
  ⟨rfl, by decide⟩

/-- C10, amended: without a proxy, for an address that parses to the port
`port` and a resolver list `ips` returned without error, every endpoint
handed to the connector is `net.JoinHostPort(ip, port)` for the ip of its
attempt: the ip, one colon and the port, with nothing added, when the ip
has no colon in it, and the ip in square brackets, then one colon and the
port, when the ip has a colon in it, as IPv6 literals do. -/
theorem dialContext_endpoint_form (txp : Transport σ Ctx Conn) (ctx : Ctx)
    (network address : String) (s s1 : σ) (hostname port : String) (ips : List String)
    (hproxy : proxyConfigured txp ctx = false)
    (hsplit : SplitHostPort address = (hostname, port, none))
    (hlookup : txp.LookupHost ctx hostname (dialState txp ctx network address s)
      = ((ips, none), s1)) :
    connectCalls (DialContext txp ctx network address s).calls
      = (ips.take (attemptedCount (attempts txp ctx network port ips s1))).map
          (fun ip => (ctx, network,
            if ':' ∈ ip.toList then "[" ++ ip ++ "]:" ++ port else ip ++ ":" ++ port)) ∧
    (∀ ip : String, ':' ∉ ip.toList → JoinHostPort ip port = ip ++ ":" ++ port) ∧
    (∀ ip : String, ':' ∈ ip.toList → JoinHostPort ip port = "[" ++ ip ++ "]:" ++ port) := by
  obtain ⟨-, -, -, -, d5⟩ := dialContext_direct txp ctx network address s hproxy
  obtain ⟨-, -, c3⟩ :=
    doDialContext_calls txp ctx network address (dialState txp ctx network address s)
  refine ⟨?_, ?_, ?_⟩
  · rw [d5, c3 hostname port ips s1 hsplit hlookup]
    simp only [joinHostPort_eq]
  · intro ip h
    rw [joinHostPort_eq, if_neg h]
  · intro ip h
    rw [joinHostPort_eq, if_pos h]

/-- C10 amended, at an example: the resolver returns `::1` and `127.0.0.1`
and the connector accepts the second endpoint only. -/
theorem dialContext_endpoint_form_witness :
    connectCalls (DialContext (scriptedTransport (["::1", "127.0.0.1"], none)) none
        "tcp" "localhost:443" [(none, some .Canceled), (some "conn", none)]).calls
      = (["::1", "127.0.0.1"].take
          (attemptedCount (attempts (scriptedTransport (["::1", "127.0.0.1"], none)) none
            "tcp" "443" ["::1", "127.0.0.1"] [(none, some .Canceled), (some "conn", none)]))).map
          (fun ip => (none, "tcp",
            if ':' ∈ ip.toList then "[" ++ ip ++ "]:" ++ "443" else ip ++ ":" ++ "443")) ∧
    (∀ ip : String, ':' ∉ ip.toList → JoinHostPort ip "443" = ip ++ ":" ++ "443") ∧
    (∀ ip : String, ':' ∈ ip.toList → JoinHostPort ip "443" = "[" ++ ip ++ "]:" ++ "443") :=
  dialContext_endpoint_form (scriptedTransport (["::1", "127.0.0.1"], none)) none "tcp"
    "localhost:443" [(none, some .Canceled), (some "conn", none)]
    [(none, some .Canceled), (some "conn", none)] "localhost" "443" ["::1", "127.0.0.1"]
    rfl rfl rfl

/-! ### What the parser lets through -/

/-- The resolver calls of `doDialContext` for an address that parses: one
call, on the host part. -/
theorem doDialContext_lookupCalls (txp : Transport σ Ctx Conn) (ctx : Ctx)
    (network addr : String) (s : σ) (hostname port : String)
    (hsplit : SplitHostPort addr = (hostname, port, none)) :
    lookupCalls (doDialContext txp ctx network addr s).calls = [(ctx, hostname)] := by
  rcases hl : txp.LookupHost ctx hostname s with ⟨⟨ips, rerr⟩, s1⟩
  cases rerr with
  | some e =>
    rw [doDialContext_lookup_err txp ctx network addr s s1 hostname port ips e hsplit hl]
    simp [lookupCalls]
  | none =>
    rw [doDialContext_lookup_ok txp ctx network addr s s1 hostname port ips hsplit hl]
    show lookupCalls (Call.LookupHost ctx hostname ::
      (connectLoop txp ctx network port ips [] s1).calls) = _
    rw [connectLoop_calls]
    simp only [lookupCalls]
    rw [lookupCalls_map_connect]

/-- C11, refuted as stated: `net.SplitHostPort` splits `:80`,
`example.com:` and `example.com:notaport` without error, into an empty
host, an empty port and a port that is no number. Without a proxy the
resolver is then called, on the empty hostname for `:80`, and with a
resolver and a connector that answer, the dial of `:80` succeeds. -/
theorem dialContext_empty_host_counterexample :
    SplitHostPort ":80" = ("", "80", none) ∧
    lookupCalls (DialContext (scriptedTransport (["10.0.0.1"], none)) none "tcp" ":80"
      [(some "conn", none)]).calls = [(none, "")] ∧
    (DialContext (scriptedTransport (["10.0.0.1"], none)) none "tcp" ":80"
      [(some "conn", none)]).err = none ∧
    (DialContext (scriptedTransport (["10.0.0.1"], none)) none "tcp" ":80"
      [(some "conn", none)]).conn = some "conn" ∧
    lookupCalls (DialContext (scriptedTransport (["10.0.0.1"], none)) none "tcp"
      "example.com:" [(some "conn", none)]).calls = [(none, "example.com")] ∧
    lookupCalls (DialContext (scriptedTransport (["10.0.0.1"], none)) none "tcp"
      "example.com:notaport" [(some "conn", none)]).calls = [(none, "example.com")] :=
  ⟨rfl, rfl, rfl, rfl, rfl, rfl⟩

/-- C11, amended: a dial whose address `net.SplitHostPort` rejects fails
with no connection and without a resolver call; `net.SplitHostPort` asks
neither for a non-empty host nor for a numeric port, so `:80`,
`example.com:` and `example.com:notaport` split without error, and for
every address that splits, without a proxy, the resolver is called once, on
the host part. -/
theorem dialContext_rejects_unsplittable (txp : Transport σ Ctx Conn) (ctx : Ctx)
    (network address : String) (s : σ) :
    ((SplitHostPort address).2.2 ≠ none →
      (DialContext txp ctx network address s).err ≠ none ∧
      (DialContext txp ctx network address s).conn = none ∧
      lookupCalls (DialContext txp ctx network address s).calls = []) ∧
    (proxyConfigured txp ctx = false → ∀ hostname port,
      SplitHostPort address = (hostname, port, none) →
      lookupCalls (DialContext txp ctx network address s).calls = [(ctx, hostname)]) ∧
    SplitHostPort ":80" = ("", "80", none) ∧
    SplitHostPort "example.com:" = ("example.com", "", none) ∧
    SplitHostPort "example.com:notaport" = ("example.com", "notaport", none) := by
  refine ⟨?_, ?_, rfl, rfl, rfl⟩
  · intro hne
    rcases hsp : SplitHostPort address with ⟨hostname, port, perr⟩
    rw [hsp] at hne
    cases perr with
    | none => exact absurd rfl hne
    | some e =>
      cases hproxy : proxyConfigured txp ctx with
      | true => simp [DialContext, hproxy, lookupCalls]
      | false =>
        obtain ⟨d1, -, d3, d4, -⟩ := dialContext_direct txp ctx network address s hproxy
        rw [doDialContext_split_err txp ctx network address _ hostname port e hsp]
          at d1 d3 d4
        exact ⟨by rw [d1]; simp, d3 (by simp), by simpa [lookupCalls] using d4⟩
  · intro hproxy hostname port hsp
    obtain ⟨-, -, -, d4, -⟩ := dialContext_direct txp ctx network address s hproxy
    rw [d4]
    exact doDialContext_lookupCalls txp ctx network address _ hostname port hsp

/-- C11 amended, at examples: the address `example.com` is rejected without
a resolver call, and for `:80` the resolver is called on the empty host. -/
theorem dialContext_rejects_unsplittable_witness :
    ((DialContext (scriptedTransport (["10.0.0.1"], none)) none "tcp" "example.com"
        [(some "conn", none)]).err ≠ none ∧
      (DialContext (scriptedTransport (["10.0.0.1"], none)) none "tcp" "example.com"
        [(some "conn", none)]).conn = none ∧
      lookupCalls (DialContext (scriptedTransport (["10.0.0.1"], none)) none "tcp"
        "example.com" [(some "conn", none)]).calls = []) ∧
    lookupCalls (DialContext (scriptedTransport (["10.0.0.1"], none)) none "tcp" ":80"
      [(some "conn", none)]).calls = [(none, "")] :=
  ⟨(dialContext_rejects_unsplittable (scriptedTransport (["10.0.0.1"], none)) none "tcp"
      "example.com" [(some "conn", none)]).1 (by
        rw [show SplitHostPort "example.com"
          = ("", "", some (.AddrError "missing port in address" "example.com")) from rfl]
        simp),
   (dialContext_rejects_unsplittable (scriptedTransport (["10.0.0.1"], none)) none "tcp"
      ":80" [(some "conn", none)]).2.1 rfl "" "80" rfl⟩

/-! ### What is forwarded to the connector -/

/-- C13: in every `DialContext` call, each connector call is made with
exactly the context and the network of the `DialContext` call, so with the
same ones at every attempt; the resolver too gets that context. -/
theorem dialContext_forwards_context_and_network (txp : Transport σ Ctx Conn) (ctx : Ctx)
    (network address : String) (s : σ) :
    (∀ c ∈ connectCalls (DialContext txp ctx network address s).calls,
      c.1 = ctx ∧ c.2.1 = network) ∧
    (∀ c ∈ lookupCalls (DialContext txp ctx network address s).calls, c.1 = ctx) := by
  cases hproxy : proxyConfigured txp ctx with
  | true => simp [DialContext, hproxy, lookupCalls, connectCalls]
  | false =>
    obtain ⟨-, -, -, d4, d5⟩ := dialContext_direct txp ctx network address s hproxy
    obtain ⟨c1, c2, c3⟩ :=
      doDialContext_calls txp ctx network address (dialState txp ctx network address s)
    rw [d4, d5]
    constructor
    · intro c hc
      rcases hsp : SplitHostPort address with ⟨hostname, port, perr⟩
      cases perr with
      | some e =>
        rw [c2 (Or.inl (by simp [hsp]))] at hc
        simp at hc
      | none =>
        rcases hl : txp.LookupHost ctx hostname (dialState txp ctx network address s)
          with ⟨⟨ips, rerr⟩, s1⟩
        cases rerr with
        | some e =>
          rw [c2 (Or.inr (by simp [hsp, hl]))] at hc
          simp at hc
        | none =>
          rw [c3 hostname port ips s1 hsp hl] at hc
          obtain ⟨ip, -, rfl⟩ := List.mem_map.1 hc
          exact ⟨rfl, rfl⟩
    · intro c hc
      rcases c1 with h | h
      · simp [h] at hc
      · rw [h] at hc
        simp at hc
        rw [hc]

/-- C13 at an example: two attempts, both with the network `tcp` and the
context of the dial. -/
theorem dialContext_forwards_context_and_network_witness :
    connectCalls (DialContext (exampleTransport ["10.0.0.1", "10.0.0.2"] ["10.0.0.2:443"])
      none "tcp" "example.com:443" 0).calls
      = [(none, "tcp", "10.0.0.1:443"), (none, "tcp", "10.0.0.2:443")] ∧
    ∀ c ∈ connectCalls (DialContext
        (exampleTransport ["10.0.0.1", "10.0.0.2"] ["10.0.0.2:443"])
        none "tcp" "example.com:443" 0).calls, c.1 = none ∧ c.2.1 = "tcp" :=
  ⟨rfl, (dialContext_forwards_context_and_network
    (exampleTransport ["10.0.0.1", "10.0.0.2"] ["10.0.0.2:443"])
    none "tcp" "example.com:443" 0).1⟩

/-! ### Repeating a dial -/

/-- With a connector whose answers depend neither on the world state nor on
which of two contexts it is given, the answers for the ips of a list are
the same under both contexts, from any two states. -/
theorem attempts_deterministic (txp : Transport σ Ctx Conn) (ctx ctx2 : Ctx)
    (network port : String)
    (hcon : ∀ n e t t2, (txp.connect ctx n e t).1 = (txp.connect ctx2 n e t2).1)
    (ips : List String) (s s2 : σ) :
    attempts txp ctx network port ips s = attempts txp ctx2 network port ips s2 := by
  induction ips generalizing s s2 with
  | nil => rfl
  | cons ip rest ih =>
    simp only [attempts]
    rw [hcon network (JoinHostPort ip port) s s2, ih]

/-- Under the same assumption the loop returns the same result. -/
theorem connectLoop_deterministic (txp : Transport σ Ctx Conn) (ctx ctx2 : Ctx)
    (network port : String)
    (hcon : ∀ n e t t2, (txp.connect ctx n e t).1 = (txp.connect ctx2 n e t2).1)
    (ips : List String) (errors : List Error) (s s2 : σ) :
    (connectLoop txp ctx network port ips errors s).conn
      = (connectLoop txp ctx2 network port ips errors s2).conn ∧
    (connectLoop txp ctx network port ips errors s).err
      = (connectLoop txp ctx2 network port ips errors s2).err := by
  induction ips generalizing errors s s2 with
  | nil => simp [connectLoop]
  | cons ip rest ih =>
    rcases h1 : txp.connect ctx network (JoinHostPort ip port) s with ⟨⟨c, e⟩, t⟩
    rcases h2 : txp.connect ctx2 network (JoinHostPort ip port) s2 with ⟨⟨c2, e2⟩, t2⟩
    have h := hcon network (JoinHostPort ip port) s s2
    rw [h1, h2] at h
    simp only [Prod.mk.injEq] at h
    obtain ⟨rfl, rfl⟩ := h
    cases e with
    | none => simp [connectLoop, h1, h2]
    | some err =>
      obtain ⟨i1, i2⟩ := ih (errors ++ [err]) t t2
      simp [connectLoop, h1, h2, i1, i2]

/-- With a resolver and a connector whose answers depend neither on the
world state nor on which of two contexts they are given, `doDialContext`
returns the same result under both contexts, from any two states, after
resolver calls on the same hostnames and connector calls on the same
networks and endpoints. -/
theorem doDialContext_deterministic (txp : Transport σ Ctx Conn) (ctx ctx2 : Ctx)
    (network addr : String)
    (hres : ∀ h t t2, (txp.LookupHost ctx h t).1 = (txp.LookupHost ctx2 h t2).1)
    (hcon : ∀ n e t t2, (txp.connect ctx n e t).1 = (txp.connect ctx2 n e t2).1)
    (s s2 : σ) :
    (doDialContext txp ctx network addr s).conn
      = (doDialContext txp ctx2 network addr s2).conn ∧
    (doDialContext txp ctx network addr s).err
      = (doDialContext txp ctx2 network addr s2).err ∧
    (lookupCalls (doDialContext txp ctx network addr s).calls).map (·.2)
      = (lookupCalls (doDialContext txp ctx2 network addr s2).calls).map (·.2) ∧
    (connectCalls (doDialContext txp ctx network addr s).calls).map (·.2)
      = (connectCalls (doDialContext txp ctx2 network addr s2).calls).map (·.2) := by
  rcases hsp : SplitHostPort addr with ⟨hostname, port, perr⟩
  cases perr with
  | some e =>
    rw [doDialContext_split_err txp ctx network addr s hostname port e hsp,
      doDialContext_split_err txp ctx2 network addr s2 hostname port e hsp]
    exact ⟨rfl, rfl, rfl, rfl⟩
  | none =>
    have hl : (lookupCalls (doDialContext txp ctx network addr s).calls).map (·.2)
        = (lookupCalls (doDialContext txp ctx2 network addr s2).calls).map (·.2) := by
      rw [doDialContext_lookupCalls txp ctx network addr s hostname port hsp,
        doDialContext_lookupCalls txp ctx2 network addr s2 hostname port hsp]
      rfl
    obtain ⟨-, a2, a3⟩ := doDialContext_calls txp ctx network addr s
    obtain ⟨-, b2, b3⟩ := doDialContext_calls txp ctx2 network addr s2
    rcases h1 : txp.LookupHost ctx hostname s with ⟨⟨ips, rerr⟩, t⟩
    rcases h2 : txp.LookupHost ctx2 hostname s2 with ⟨⟨ips2, rerr2⟩, t2⟩
    have h := hres hostname s s2
    rw [h1, h2] at h
    simp only [Prod.mk.injEq] at h
    obtain ⟨rfl, rfl⟩ := h
    cases rerr with
    | some e =>
      refine ⟨?_, ?_, hl, ?_⟩
      · rw [doDialContext_lookup_err txp ctx network addr s t hostname port ips e hsp h1,
          doDialContext_lookup_err txp ctx2 network addr s2 t2 hostname port ips e hsp h2]
      · rw [doDialContext_lookup_err txp ctx network addr s t hostname port ips e hsp h1,
          doDialContext_lookup_err txp ctx2 network addr s2 t2 hostname port ips e hsp h2]
      · rw [a2 (Or.inr (by simp [hsp, h1])), b2 (Or.inr (by simp [hsp, h2]))]
    | none =>
      obtain ⟨i1, i2⟩ := connectLoop_deterministic txp ctx ctx2 network port hcon ips [] t t2
      refine ⟨?_, ?_, hl, ?_⟩
      · rw [doDialContext_lookup_ok txp ctx network addr s t hostname port ips hsp h1,
          doDialContext_lookup_ok txp ctx2 network addr s2 t2 hostname port ips hsp h2]
        exact i1
      · rw [doDialContext_lookup_ok txp ctx network addr s t hostname port ips hsp h1,
          doDialContext_lookup_ok txp ctx2 network addr s2 t2 hostname port ips hsp h2]
        exact i2
      · rw [a3 hostname port ips t hsp h1, b3 hostname port ips t2 hsp h2,
          attempts_deterministic txp ctx ctx2 network port hcon ips t t2]
        simp [List.map_map, Function.comp_def]

/-- C14: when the answers of the resolver and of the connector are
functions of the hostname, and of the network and the endpoint, alone,
whatever the world state and whichever of the two contexts they are given,
two `DialContext` calls whose contexts carry the same settings, with the
same network and address, made in any two world states, the second
possibly the state the first one left, return the same connection and the
same error, after connector calls on the same endpoints in the same order
and resolver calls on the same hostname. -/
theorem dialContext_deterministic (txp : Transport σ Ctx Conn) (ctx ctx2 : Ctx)
    (network address : String) (s s2 : σ)
    (hset : txp.ContextSettings ctx = txp.ContextSettings ctx2)
    (hres : ∀ h t t2, (txp.LookupHost ctx h t).1 = (txp.LookupHost ctx2 h t2).1)
    (hcon : ∀ n e t t2, (txp.connect ctx n e t).1 = (txp.connect ctx2 n e t2).1) :
    (DialContext txp ctx network address s).conn
      = (DialContext txp ctx2 network address s2).conn ∧
    (DialContext txp ctx network address s).err
      = (DialContext txp ctx2 network address s2).err ∧
    (connectCalls (DialContext txp ctx network address s).calls).map (·.2)
      = (connectCalls (DialContext txp ctx2 network address s2).calls).map (·.2) ∧
    (lookupCalls (DialContext txp ctx network address s).calls).map (·.2)
      = (lookupCalls (DialContext txp ctx2 network address s2).calls).map (·.2) := by
  have hp : proxyConfigured txp ctx = proxyConfigured txp ctx2 := by
    simp [proxyConfigured, hset]
  cases hproxy : proxyConfigured txp ctx with
  | true =>
    have hproxy2 : proxyConfigured txp ctx2 = true := by rw [← hp, hproxy]
    simp [DialContext, hproxy, hproxy2]
  | false =>
    have hproxy2 : proxyConfigured txp ctx2 = false := by rw [← hp, hproxy]
    obtain ⟨a1, a2, a3, a4, a5⟩ := dialContext_direct txp ctx network address s hproxy
    obtain ⟨b1, b2, b3, b4, b5⟩ := dialContext_direct txp ctx2 network address s2 hproxy2
    obtain ⟨i1, i2, i3, i4⟩ := doDialContext_deterministic txp ctx ctx2 network address
      hres hcon (dialState txp ctx network address s) (dialState txp ctx2 network address s2)
    refine ⟨?_, by rw [a1, b1, i2], by rw [a5, b5, i4], by rw [a4, b4, i3]⟩
    cases hd : (doDialContext txp ctx network address
      (dialState txp ctx network address s)).err with
    | none => rw [a2 hd, b2 (by rw [← i2]; exact hd), i1]
    | some e =>
      rw [a3 (by rw [hd]; simp), b3 (by rw [← i2, hd]; simp)]

/-- C14 at an example: the dial of `example.com:443` is made twice, the
second time in the state the first one left; the resolver and connector of
`exampleTransport` count their calls in the state and answer from the
hostname and the endpoint alone. -/
theorem dialContext_deterministic_witness :
    (DialContext (exampleTransport ["10.0.0.1", "10.0.0.2"] ["10.0.0.2:443"])
        none "tcp" "example.com:443" 0).state = 3 ∧
    (DialContext (exampleTransport ["10.0.0.1", "10.0.0.2"] ["10.0.0.2:443"])
        none "tcp" "example.com:443" 0).conn = some "10.0.0.2:443" ∧
    (DialContext (exampleTransport ["10.0.0.1", "10.0.0.2"] ["10.0.0.2:443"])
        none "tcp" "example.com:443" 0).conn
      = (DialContext (exampleTransport ["10.0.0.1", "10.0.0.2"] ["10.0.0.2:443"])
        none "tcp" "example.com:443" 3).conn ∧
    (DialContext (exampleTransport ["10.0.0.1", "10.0.0.2"] ["10.0.0.2:443"])
        none "tcp" "example.com:443" 0).err
      = (DialContext (exampleTransport ["10.0.0.1", "10.0.0.2"] ["10.0.0.2:443"])
        none "tcp" "example.com:443" 3).err ∧
    (connectCalls (DialContext (exampleTransport ["10.0.0.1", "10.0.0.2"] ["10.0.0.2:443"])
        none "tcp" "example.com:443" 0).calls).map (·.2)
      = (connectCalls (DialContext (exampleTransport ["10.0.0.1", "10.0.0.2"] ["10.0.0.2:443"])
        none "tcp" "example.com:443" 3).calls).map (·.2) ∧
    (lookupCalls (DialContext (exampleTransport ["10.0.0.1", "10.0.0.2"] ["10.0.0.2:443"])
        none "tcp" "example.com:443" 0).calls).map (·.2)
      = (lookupCalls (DialContext (exampleTransport ["10.0.0.1", "10.0.0.2"] ["10.0.0.2:443"])
        none "tcp" "example.com:443" 3).calls).map (·.2) :=
  ⟨rfl, rfl,
    dialContext_deterministic (exampleTransport ["10.0.0.1", "10.0.0.2"] ["10.0.0.2:443"])
      none none "tcp" "example.com:443" 0 3 rfl
      (by intro h t t2; simp only [exampleTransport]; split <;> rfl)
      (by intro n e t t2; simp only [exampleTransport]; split <;> rfl)⟩

/-! ### Success and failure -/

/-- Every entry of `attempts` is an answer of the connector. -/
theorem attempts_mem (txp : Transport σ Ctx Conn) (ctx : Ctx) (network port : String)
    (ips : List String) (s : σ) (a : Option Conn × Option Error)
    (ha : a ∈ attempts txp ctx network port ips s) :
    ∃ ip t, ip ∈ ips ∧ a = (txp.connect ctx network (JoinHostPort ip port) t).1 := by
  induction ips generalizing s with
  | nil => simp [attempts] at ha
  | cons ip rest ih =>
    simp only [attempts, List.mem_cons] at ha
    rcases ha with rfl | h
    · exact ⟨ip, s, List.mem_cons_self _ _, rfl⟩
    · obtain ⟨ip2, t, hm, rfl⟩ := ih _ h
      exact ⟨ip2, t, List.mem_cons_of_mem _ hm, rfl⟩

/-- C15: assuming every answer of the connector is exactly one of a
connection and an error, `DialContext` returns a nil error if and only if
no proxy is configured, the address parses, the resolver returns a list
without error and at least one connector answer for the endpoints of the
list, tried in order, is a success; and in every case `DialContext`
returns a connection if and only if it returns a nil error, so exactly one
of the two. -/
theorem dialContext_success_iff (txp : Transport σ Ctx Conn) (ctx : Ctx)
    (network address : String) (s : σ)
    (hone : ∀ c n e t, ((txp.connect c n e t).1.1.isSome = true ↔
      (txp.connect c n e t).1.2 = none)) :
    ((DialContext txp ctx network address s).err = none ↔
      (proxyConfigured txp ctx = false ∧
        ∃ hostname port ips s1, SplitHostPort address = (hostname, port, none) ∧
          txp.LookupHost ctx hostname (dialState txp ctx network address s)
            = ((ips, none), s1) ∧
          ∃ a ∈ attempts txp ctx network port ips s1, a.2 = none)) ∧
    ((DialContext txp ctx network address s).conn.isSome = true ↔
      (DialContext txp ctx network address s).err = none) := by
  cases hproxy : proxyConfigured txp ctx with
  | true => simp [DialContext, hproxy]
  | false =>
    obtain ⟨d1, d2, d3, -, -⟩ := dialContext_direct txp ctx network address s hproxy
    rcases hsp : SplitHostPort address with ⟨hostname, port, perr⟩
    cases perr with
    | some e =>
      rw [doDialContext_split_err txp ctx network address _ hostname port e hsp] at d1 d3
      have herr : (DialContext txp ctx network address s).err = some (.ErrDial e) := by
        simpa using d1
      have hconn := d3 (by simp)
      simp [herr, hconn]
    | none =>
      rcases hl : txp.LookupHost ctx hostname (dialState txp ctx network address s)
        with ⟨⟨ips, rerr⟩, s1⟩
      cases rerr with
      | some e =>
        rw [doDialContext_lookup_err txp ctx network address _ s1 hostname port ips e hsp
          hl] at d1 d3
        have herr : (DialContext txp ctx network address s).err = some (.ErrDial e) := by
          simpa using d1
        have hconn := d3 (by simp)
        simp [herr, hconn, hl]
      | none =>
        have hd := doDialContext_lookup_ok txp ctx network address _ s1 hostname port ips
          hsp hl
        by_cases h : ∃ a ∈ attempts txp ctx network port ips s1, a.2 = none
        · obtain ⟨fails, conn, later, hat, hfail⟩ := exists_first_success _ h
          obtain ⟨h1, h2, -⟩ :=
            connectLoop_first_success txp ctx network port ips [] s1 fails later conn hat hfail
          have hnone : (doDialContext txp ctx network address
              (dialState txp ctx network address s)).err = none := by
            rw [hd]
            simpa using h2
          have herr : (DialContext txp ctx network address s).err = none := by
            rw [d1, hnone]
            rfl
          have hconn : (DialContext txp ctx network address s).conn = conn := by
            rw [d2 hnone, hd]
            simpa using h1
          have hmem : (conn, (none : Option Error))
              ∈ attempts txp ctx network port ips s1 := by
            rw [hat]
            simp
          obtain ⟨ip, t, -, heq⟩ := attempts_mem txp ctx network port ips s1 _ hmem
          have hs : conn.isSome = true := by
            have h3 := hone ctx network (JoinHostPort ip port) t
            rw [← heq] at h3
            exact h3.2 rfl
          refine ⟨⟨fun _ => ⟨rfl, hostname, port, ips, s1, rfl, hl, h⟩, fun _ => herr⟩, ?_⟩
          rw [hconn, herr]
          simp [hs]
        · have hfail : ∀ a ∈ attempts txp ctx network port ips s1, a.2 ≠ none :=
            fun a ha hn => h ⟨a, ha, hn⟩
          obtain ⟨errs, -, h2, -, -⟩ :=
            connectLoop_all_fail txp ctx network port ips [] s1 hfail
          have hsome : (doDialContext txp ctx network address
              (dialState txp ctx network address s)).err
              = some (.ErrAllConnectsFailed errs) := by
            rw [hd]
            simpa using h2
          have herr : (DialContext txp ctx network address s).err
              = some (.ErrDial (.ErrAllConnectsFailed errs)) := by
            rw [d1, hsome]
            rfl
          have hconn := d3 (by rw [hsome]; simp)
          refine ⟨⟨fun hn => ?_, fun hx => ?_⟩, ?_⟩
          · rw [herr] at hn
            simp at hn
          · obtain ⟨-, hostname2, port2, ips2, s2, e1, e2, e3⟩ := hx
            simp only [Prod.mk.injEq] at e1
            obtain ⟨rfl, rfl, -⟩ := e1
            rw [hl] at e2
            simp only [Prod.mk.injEq] at e2
            obtain ⟨⟨rfl, -⟩, rfl⟩ := e2
            exact absurd e3 h
          · rw [hconn, herr]
            simp

/-- C15 at an example: the connector of `exampleTransport` answers with a
connection or with an error, never with both or with neither. -/
theorem dialContext_success_iff_witness :
    ((DialContext (exampleTransport ["10.0.0.1", "10.0.0.2"] ["10.0.0.2:443"])
        none "tcp" "example.com:443" 0).err = none ↔
      (proxyConfigured (exampleTransport ["10.0.0.1", "10.0.0.2"] ["10.0.0.2:443"]) none
          = false ∧
        ∃ hostname port ips s1, SplitHostPort "example.com:443" = (hostname, port, none) ∧
          (exampleTransport ["10.0.0.1", "10.0.0.2"] ["10.0.0.2:443"]).LookupHost none
            hostname (dialState (exampleTransport ["10.0.0.1", "10.0.0.2"] ["10.0.0.2:443"])
              none "tcp" "example.com:443" 0) = ((ips, none), s1) ∧
          ∃ a ∈ attempts (exampleTransport ["10.0.0.1", "10.0.0.2"] ["10.0.0.2:443"])
            none "tcp" port ips s1, a.2 = none)) ∧
    ((DialContext (exampleTransport ["10.0.0.1", "10.0.0.2"] ["10.0.0.2:443"])
        none "tcp" "example.com:443" 0).conn.isSome = true ↔
      (DialContext (exampleTransport ["10.0.0.1", "10.0.0.2"] ["10.0.0.2:443"])
        none "tcp" "example.com:443" 0).err = none) :=
  dialContext_success_iff (exampleTransport ["10.0.0.1", "10.0.0.2"] ["10.0.0.2:443"])
    none "tcp" "example.com:443" 0
    (by intro c n e t; simp only [exampleTransport]; split <;> simp)

/-! ### The string form of the aggregate -/

set_option maxRecDepth 100000 in
/-- C12, refuted as stated: the resolver returns two ips, the first
connect fails with `context.DeadlineExceeded` and the second with
`context.Canceled`. The string form of the error that `DialContext`
returns lists the two errors in their `%#v` forms, the type with braces for
the first and the type with an address for the second, and neither the
message `context deadline exceeded` nor the message `context canceled`
occurs in it. -/
theorem dialContext_error_string_counterexample :
    (DialContext (scriptedTransport (["10.0.0.1", "10.0.0.2"], none)) none "tcp"
        "example.com:443" [(none, some .DeadlineExceeded), (none, some .Canceled)]).err
      = some (.ErrDial (.ErrAllConnectsFailed [.DeadlineExceeded, .Canceled])) ∧
    Error.Error (fun _ => "0xc000010250") id
        (.ErrDial (.ErrAllConnectsFailed [.DeadlineExceeded, .Canceled]))
      = "one or more connect() failed: []error\x7bcontext.deadlineExceededError\x7b\x7d, (*errors.errorString)(0xc000010250)\x7d" ∧
    Error.Error (fun _ => "0xc000010250") id .DeadlineExceeded
      = "context deadline exceeded" ∧
    Error.Error (fun _ => "0xc000010250") id .Canceled = "context canceled" ∧
    ¬ ("context deadline exceeded".toList <:+:
      "one or more connect() failed: []error\x7bcontext.deadlineExceededError\x7b\x7d, (*errors.errorString)(0xc000010250)\x7d".toList) ∧
    ¬ ("context canceled".toList <:+:
      "one or more connect() failed: []error\x7bcontext.deadlineExceededError\x7b\x7d, (*errors.errorString)(0xc000010250)\x7d".toList) :=
  ⟨rfl, rfl, rfl, rfl, by decide, by decide⟩

/-- C12, amended: without a proxy, for an address that parses and a
resolver list returned without error, when every connect fails the string
form of the error that `DialContext` returns is the text
`one or more connect() failed: ` followed by the `%#v` form of the list of
the attempt errors: for a list that is not empty, `[]error`, an opening
brace, the `%#v` forms of the errors of the attempts in attempt order,
separated by a comma and a blank, and a closing brace. The `%#v` form of
an error is not its message: for `context.DeadlineExceeded` it is the type
followed by braces, for `context.Canceled` the type and the address. -/
theorem dialContext_error_string (txp : Transport σ Ctx Conn) (ctx : Ctx)
    (network address : String) (s s1 : σ) (hostname port : String) (ips : List String)
    (addr : Error → String) (other : String → String)
    (hproxy : proxyConfigured txp ctx = false)
    (hsplit : SplitHostPort address = (hostname, port, none))
    (hlookup : txp.LookupHost ctx hostname (dialState txp ctx network address s)
      = ((ips, none), s1))
    (hfail : ∀ a ∈ attempts txp ctx network port ips s1, a.2 ≠ none) :
    ∃ errs : List Error,
      errs.map some = (attempts txp ctx network port ips s1).map (·.2) ∧
      (DialContext txp ctx network address s).err
        = some (.ErrDial (.ErrAllConnectsFailed errs)) ∧
      Error.Error addr other (.ErrDial (.ErrAllConnectsFailed errs))
        = "one or more connect() failed: "
          ++ sharpVErrors (errs.map (goSyntax addr other)) ∧
      (ips ≠ [] →
        Error.Error addr other (.ErrDial (.ErrAllConnectsFailed errs))
          = "one or more connect() failed: " ++ ("[]error\x7b"
            ++ ", ".intercalate (errs.map (goSyntax addr other)) ++ "\x7d")) ∧
      goSyntax addr other .DeadlineExceeded = "context.deadlineExceededError\x7b\x7d" ∧
      goSyntax addr other .Canceled = "(*errors.errorString)(" ++ addr .Canceled ++ ")" := by
  obtain ⟨errs, h1, h2, -, -⟩ := connectLoop_all_fail txp ctx network port ips [] s1 hfail
  obtain ⟨d1, -, -, -, -⟩ := dialContext_direct txp ctx network address s hproxy
  rw [doDialContext_lookup_ok txp ctx network address _ s1 hostname port ips hsplit hlookup]
    at d1
  refine ⟨errs, h1, ?_, rfl, ?_, rfl, rfl⟩
  · rw [d1]
    simpa using h2
  · intro hne
    have hlen : errs.length = ips.length := by
      have := congrArg List.length h1
      simpa [attempts_length] using this
    cases errs with
    | nil => exact absurd (List.length_eq_zero.1 hlen.symm) hne
    | cons e rest => rfl

/-- C12 amended, at an example: two attempts, the first one timed out and
the second one cancelled. -/
theorem dialContext_error_string_witness :
    ∃ errs : List Error,
      errs.map some = (attempts (scriptedTransport (["10.0.0.1", "10.0.0.2"], none)) none
        "tcp" "443" ["10.0.0.1", "10.0.0.2"]
        [(none, some .DeadlineExceeded), (none, some .Canceled)]).map (·.2) ∧
      (DialContext (scriptedTransport (["10.0.0.1", "10.0.0.2"], none)) none "tcp"
        "example.com:443" [(none, some .DeadlineExceeded), (none, some .Canceled)]).err
        = some (.ErrDial (.ErrAllConnectsFailed errs)) ∧
      Error.Error (fun _ => "0xc000010250") id (.ErrDial (.ErrAllConnectsFailed errs))
        = "one or more connect() failed: "
          ++ sharpVErrors (errs.map (goSyntax (fun _ => "0xc000010250") id)) ∧
      (["10.0.0.1", "10.0.0.2"] ≠ [] →
        Error.Error (fun _ => "0xc000010250") id (.ErrDial (.ErrAllConnectsFailed errs))
          = "one or more connect() failed: " ++ ("[]error\x7b"
            ++ ", ".intercalate (errs.map (goSyntax (fun _ => "0xc000010250") id))
            ++ "\x7d")) ∧
      goSyntax (fun _ => "0xc000010250") id .DeadlineExceeded
        = "context.deadlineExceededError\x7b\x7d" ∧
      goSyntax (fun _ => "0xc000010250") id .Canceled
        = "(*errors.errorString)(" ++ (fun _ => "0xc000010250") Error.Canceled ++ ")" :=
  dialContext_error_string (scriptedTransport (["10.0.0.1", "10.0.0.2"], none)) none "tcp"
    "example.com:443" [(none, some .DeadlineExceeded), (none, some .Canceled)]
    [(none, some .DeadlineExceeded), (none, some .Canceled)]
    "example.com" "443" ["10.0.0.1", "10.0.0.2"] (fun _ => "0xc000010250") id
    rfl rfl rfl (by
      intro a ha
      have hl : attempts (scriptedTransport (["10.0.0.1", "10.0.0.2"], none)) none
          "tcp" "443" ["10.0.0.1", "10.0.0.2"]
          [(none, some .DeadlineExceeded), (none, some .Canceled)]
          = [(none, some .DeadlineExceeded), (none, some .Canceled)] := rfl
      rw [hl] at ha
      simp at ha
      rcases ha with rfl | rfl <;> simp)

/-! ### Joining and splitting again -/

/-- `IndexByteString` finds nothing exactly when the character is absent. -/
theorem indexByteString_none (l : List Char) (c : Char) :
    IndexByteString l c = none ↔ c ∉ l := by
  rw [← indexByteString_isSome]
  cases IndexByteString l c <;> simp

/-- The first occurrence, when the text before it is free of the character. -/
theorem indexByteString_append (l r : List Char) (c : Char) (h : c ∉ l) :
    IndexByteString (l ++ c :: r) c = some l.length := by
  induction l with
  | nil => simp [IndexByteString]
  | cons x xs ih =>
    have hx : ¬ x = c := fun e => h (by simp [e])
    have hxs : c ∉ xs := fun e => h (List.mem_cons_of_mem _ e)
    simp [IndexByteString, hx, ih hxs]

/-- `last` finds nothing exactly when the character is absent. -/
theorem last_none (l : List Char) (c : Char) : last l c = none ↔ c ∉ l := by
  induction l with
  | nil => simp [last]
  | cons x xs ih =>
    simp only [last]
    cases hl : last xs c with
    | some i =>
      have : c ∈ xs := by
        by_contra hc
        rw [ih.2 hc] at hl
        simp at hl
      simp [this]
    | none =>
      have hc : c ∉ xs := ih.1 hl
      by_cases hx : x = c
      · simp [hx]
      · have hx2 : ¬ c = x := fun e => hx e.symm
        simp [hx, hx2, hc]

/-- The last occurrence, when the text after it is free of the character. -/
theorem last_append (l r : List Char) (c : Char) (h : c ∉ r) :
    last (l ++ c :: r) c = some l.length := by
  induction l with
  | nil => simp [last, (last_none r c).2 h]
  | cons x xs ih => simp [last, ih]

/-- Nothing after the last occurrence is the character. -/
theorem last_drop (l : List Char) (c : Char) (i : Nat) (h : last l c = some i) :
    c ∉ l.drop (i + 1) := by
  induction l generalizing i with
  | nil => simp [last] at h
  | cons x xs ih =>
    simp only [last] at h
    cases hl : last xs c with
    | some j =>
      rw [hl] at h
      simp at h
      subst h
      simpa using ih j hl
    | none =>
      rw [hl] at h
      by_cases hx : x = c
      · simp [hx] at h
        subst h
        simpa using (last_none xs c).1 hl
      · simp [hx] at h

/-- The characters of `net.JoinHostPort(ip, port)`. -/
theorem joinHostPort_toList (ip port : String) :
    (JoinHostPort ip port).toList
      = if ':' ∈ ip.toList then '[' :: (ip.toList ++ ']' :: ':' :: port.toList)
        else ip.toList ++ ':' :: port.toList := by
  rw [joinHostPort_eq]
  split <;> simp [String.toList]


/-- `net.SplitHostPort` on a bracketed host followed by a colon and a port. -/
theorem splitHostPort_of_bracketed (hp : String) (I P : List Char)
    (hhp : hp.toList = '[' :: (I ++ ']' :: ':' :: P))
    (h2 : ']' ∉ I) (h1 : '[' ∉ I) (h3 : ':' ∉ P) (h4 : '[' ∉ P) (h5 : ']' ∉ P) :
    SplitHostPort hp = (String.mk I, String.mk P, none) := by
  have hlast : last ('[' :: (I ++ ']' :: ':' :: P)) ':' = some (I.length + 2) := by
    have h := last_append ('[' :: (I ++ [']'])) P ':' h3
    simpa using h
  have hidx : IndexByteString ('[' :: (I ++ ']' :: ':' :: P)) ']' = some (I.length + 1) := by
    have h := indexByteString_append ('[' :: I) (':' :: P) ']' (by simp [h2])
    simpa using h
  have hd1 : IndexByteString (I ++ ']' :: ':' :: P) '[' = none := by
    rw [indexByteString_none]
    simp [h1, h4]
  have hd2 : IndexByteString (':' :: P) ']' = none := by
    rw [indexByteString_none]
    simp [h5]
  have hdrop2 : List.drop (I.length + 1) (I ++ ']' :: ':' :: P) = ':' :: P := by
    rw [List.drop_append_eq_append_drop]
    simp
  have hdrop3 : List.drop (I.length + 2) (I ++ ']' :: ':' :: P) = P := by
    rw [List.drop_append_eq_append_drop]
    simp
  have htake : List.take I.length (I ++ ']' :: ':' :: P) = I := by
    simp
  unfold SplitHostPort
  rw [hhp, hlast]
  simp only [List.head?_cons, if_true, hidx]
  unfold splitTail
  rw [hhp]
  simp only [List.drop_succ_cons, List.drop_zero, hd1, hdrop2, hd2, hdrop3,
    List.take_succ_cons, htake]
  simp

/-- `net.SplitHostPort` on a host without colon followed by a colon and a port. -/
theorem splitHostPort_of_plain (hp : String) (I P : List Char)
    (hhp : hp.toList = I ++ ':' :: P)
    (h0 : ':' ∉ I) (h1 : '[' ∉ I) (h2 : ']' ∉ I)
    (h3 : ':' ∉ P) (h4 : '[' ∉ P) (h5 : ']' ∉ P) :
    SplitHostPort hp = (String.mk I, String.mk P, none) := by
  have hlast : last (I ++ ':' :: P) ':' = some I.length := last_append I P ':' h3
  have hhead : ¬ (I ++ ':' :: P).head? = some '[' := by
    cases I with
    | nil => simp
    | cons x xs =>
      simp
      intro e
      exact h1 (by simp [e])
  have hc : IndexByteString I ':' = none := (indexByteString_none I ':').2 h0
  have hd1 : IndexByteString (I ++ ':' :: P) '[' = none := by
    rw [indexByteString_none]
    simp [h1, h4]
  have hd2 : IndexByteString (I ++ ':' :: P) ']' = none := by
    rw [indexByteString_none]
    simp [h2, h5]
  have hdrop : List.drop (I.length + 1) (I ++ ':' :: P) = P := by
    rw [List.drop_append_eq_append_drop]
    simp
  unfold SplitHostPort
  rw [hhp, hlast]
  simp only [if_neg hhead, List.take_left, hc]
  unfold splitTail
  rw [hhp]
  simp only [List.drop_zero, hd1, hd2, hdrop]
  simp


/-- What is left after dropping more was there after dropping less. -/
theorem mem_drop_of_le (l : List Char) (c : Char) (j n : Nat) (hj : j ≤ n)
    (h : c ∈ l.drop n) : c ∈ l.drop j := by
  have e : l.drop n = (l.drop j).drop (n - j) := by
    rw [List.drop_drop]
    congr 1
    omega
  rw [e] at h
  exact List.mem_of_mem_drop h

/-- A successful `splitTail` passed both bracket checks. -/
theorem splitTail_ok (hostport : String) (i : Nat) (host : List Char) (j k : Nat)
    (hostname port : String)
    (h : splitTail hostport i host j k = (hostname, port, none)) :
    hostname = String.mk host ∧ port = String.mk (hostport.toList.drop (i + 1)) ∧
    '[' ∉ hostport.toList.drop j ∧ ']' ∉ hostport.toList.drop k := by
  unfold splitTail at h
  cases h1 : IndexByteString (hostport.toList.drop j) '[' with
  | some a =>
    rw [h1] at h
    simp [addrErr] at h
  | none =>
    rw [h1] at h
    cases h2 : IndexByteString (hostport.toList.drop k) ']' with
    | some a =>
      rw [h2] at h
      simp [addrErr] at h
    | none =>
      rw [h2] at h
      simp only [Option.isSome_none, Bool.false_eq_true, if_false, Prod.mk.injEq] at h
      exact ⟨h.1.symm, h.2.1.symm, (indexByteString_none _ _).1 h1,
        (indexByteString_none _ _).1 h2⟩

/-- A port that `net.SplitHostPort` returns has no colon and no bracket in it. -/
theorem splitHostPort_port (address hostname port : String)
    (h : SplitHostPort address = (hostname, port, none)) :
    ':' ∉ port.toList ∧ '[' ∉ port.toList ∧ ']' ∉ port.toList := by
  unfold SplitHostPort at h
  cases hl : last address.toList ':' with
  | none =>
    rw [hl] at h
    simp [addrErr] at h
  | some i =>
    rw [hl] at h
    simp only at h
    have hcolon := last_drop _ _ _ hl
    have key : ∀ host j k, j ≤ i + 1 → k ≤ i + 1 →
        splitTail address i host j k = (hostname, port, none) →
        ':' ∉ port.toList ∧ '[' ∉ port.toList ∧ ']' ∉ port.toList := by
      intro host j k hj hk hs
      obtain ⟨-, hp, hl1, hl2⟩ := splitTail_ok address i host j k hostname port hs
      subst hp
      exact ⟨hcolon, fun hm => hl1 (mem_drop_of_le _ _ j (i + 1) hj hm),
        fun hm => hl2 (mem_drop_of_le _ _ k (i + 1) hk hm)⟩
    by_cases hb : address.toList.head? = some '['
    · rw [if_pos hb] at h
      cases he : IndexByteString address.toList ']' with
      | none =>
        rw [he] at h
        simp [addrErr] at h
      | some e =>
        rw [he] at h
        simp only at h
        by_cases h1 : e + 1 = address.toList.length
        · rw [if_pos h1] at h
          simp [addrErr] at h
        · rw [if_neg h1] at h
          by_cases h2 : e + 1 = i
          · rw [if_pos h2] at h
            exact key _ 1 (e + 1) (by omega) (by omega) h
          · rw [if_neg h2] at h
            by_cases h3 : address.toList.get? (e + 1) = some ':'
            · rw [if_pos h3] at h
              simp [addrErr] at h
            · rw [if_neg h3] at h
              simp [addrErr] at h
    · rw [if_neg hb] at h
      by_cases h1 : (IndexByteString (address.toList.take i) ':').isSome = true
      · rw [if_pos h1] at h
        simp [addrErr] at h
      · rw [if_neg h1] at h
        exact key _ 0 0 (by omega) (by omega) h

/-- C16: for a port that `net.SplitHostPort` returned for the dial address
and every ip string with neither `[` nor `]` in it, IPv6 literals included,
`net.SplitHostPort` splits `net.JoinHostPort(ip, port)` without error into
exactly the ip and the port; so, without a proxy, when the resolver
returns without error a list of such ips, every endpoint handed to the
connector splits back into an ip of the list and the port of the address. -/
theorem dialContext_endpoint_roundtrip (txp : Transport σ Ctx Conn) (ctx : Ctx)
    (network address : String) (s : σ) (hostname port : String)
    (hsplit : SplitHostPort address = (hostname, port, none)) :
    (∀ ip : String, '[' ∉ ip.toList → ']' ∉ ip.toList →
      SplitHostPort (JoinHostPort ip port) = (ip, port, none)) ∧
    (∀ ips s1, proxyConfigured txp ctx = false →
      txp.LookupHost ctx hostname (dialState txp ctx network address s) = ((ips, none), s1) →
      (∀ ip ∈ ips, '[' ∉ ip.toList ∧ ']' ∉ ip.toList) →
      ∀ c ∈ connectCalls (DialContext txp ctx network address s).calls,
        ∃ ip ∈ ips, SplitHostPort c.2.2 = (ip, port, none)) := by
  obtain ⟨p1, p2, p3⟩ := splitHostPort_port address hostname port hsplit
  have hround : ∀ ip : String, '[' ∉ ip.toList → ']' ∉ ip.toList →
      SplitHostPort (JoinHostPort ip port) = (ip, port, none) := by
    intro ip hl hr
    by_cases hc : ':' ∈ ip.toList
    · have hj : (JoinHostPort ip port).toList
          = '[' :: (ip.toList ++ ']' :: ':' :: port.toList) := by
        rw [joinHostPort_toList, if_pos hc]
      exact splitHostPort_of_bracketed _ ip.toList port.toList hj hr hl p1 p2 p3
    · have hj : (JoinHostPort ip port).toList = ip.toList ++ ':' :: port.toList := by
        rw [joinHostPort_toList, if_neg hc]
      exact splitHostPort_of_plain _ ip.toList port.toList hj hc hl hr p1 p2 p3
  refine ⟨hround, ?_⟩
  intro ips s1 hproxy hlookup hips c hc
  obtain ⟨-, -, -, -, d5⟩ := dialContext_direct txp ctx network address s hproxy
  obtain ⟨-, -, c3⟩ :=
    doDialContext_calls txp ctx network address (dialState txp ctx network address s)
  rw [d5, c3 hostname port ips s1 hsplit hlookup] at hc
  obtain ⟨ip, hmem, rfl⟩ := List.mem_map.1 hc
  have hin : ip ∈ ips := List.mem_of_mem_take hmem
  exact ⟨ip, hin, hround ip (hips ip hin).1 (hips ip hin).2⟩

/-- C16 at an example: the address `example.com:443` gives the port `443`,
and the endpoint built for the IPv6 literal `::1` splits back into `::1`
and `443`. -/
theorem dialContext_endpoint_roundtrip_witness :
    JoinHostPort "::1" "443" = "[::1]:443" ∧
    SplitHostPort (JoinHostPort "::1" "443") = ("::1", "443", none) :=
  ⟨rfl, (dialContext_endpoint_roundtrip (scriptedTransport (["::1"], none)) none "tcp"
    "example.com:443" [(some "conn", none)] "example.com" "443" rfl).1 "::1"
    (by decide) (by decide)⟩

/-! ## The examples of the specification, evaluated -/

/-- The resolver returns `10.0.0.1` and `10.0.0.2`, the connector refuses
`10.0.0.1:443` and accepts `10.0.0.2:443`: the dial returns the connection
to the second endpoint after calling the connector on both, in order. -/
theorem example_second_endpoint_connects :
    (DialContext (exampleTransport ["10.0.0.1", "10.0.0.2"] ["10.0.0.2:443"])
      none "tcp" "example.com:443" 0).conn = some "10.0.0.2:443" ∧
    (DialContext (exampleTransport ["10.0.0.1", "10.0.0.2"] ["10.0.0.2:443"])
      none "tcp" "example.com:443" 0).err = none ∧
    connectCalls (DialContext (exampleTransport ["10.0.0.1", "10.0.0.2"] ["10.0.0.2:443"])
      none "tcp" "example.com:443" 0).calls
      = [(none, "tcp", "10.0.0.1:443"), (none, "tcp", "10.0.0.2:443")] ∧
    (DialContext (exampleTransport ["10.0.0.1", "10.0.0.2"] ["10.0.0.2:443"])
      none "tcp" "example.com:443" 0).state = 3 :=
  ⟨rfl, rfl, rfl, rfl⟩

/-- The resolver returns `10.0.0.1` and `10.0.0.2` and the connector
refuses both: the dial returns the aggregate of the two errors, in
resolution order, inside `ErrDial`. -/
theorem example_both_endpoints_fail :
    (DialContext (exampleTransport ["10.0.0.1", "10.0.0.2"] [])
      none "tcp" "example.com:443" 0).conn = none ∧
    (DialContext (exampleTransport ["10.0.0.1", "10.0.0.2"] [])
      none "tcp" "example.com:443" 0).err
      = some (.ErrDial (.ErrAllConnectsFailed
          [.Other "connection refused: 10.0.0.1:443",
           .Other "connection refused: 10.0.0.2:443"])) ∧
    connectCalls (DialContext (exampleTransport ["10.0.0.1", "10.0.0.2"] [])
      none "tcp" "example.com:443" 0).calls
      = [(none, "tcp", "10.0.0.1:443"), (none, "tcp", "10.0.0.2:443")] :=
  ⟨rfl, rfl, rfl⟩

/-- The calls of a successful dial, log lines included. -/
theorem example_call_list :
    (DialContext (exampleTransport ["10.0.0.1"] ["10.0.0.1:443"])
      none "tcp" "example.com:443" 0).calls
      = [.Debugf none "dial: %s/%s..." [.str "example.com:443", .str "tcp"],
         .LookupHost none "example.com",
         .connect none "tcp" "10.0.0.1:443",
         .Debugf none "dial: %s/%s... ok" [.str "example.com:443", .str "tcp"]] :=
  rfl

end Netplumbing
